import Mathlib

/-!
# The cart client of `static/js/main.js`

A shallow embedding of the class `Panier` (lines 43-206 of `static/js/main.js`)
and of the properties its specification states.

The object has two fields, `items` and `loading`. Every method is `async`; its
only suspension points are `await fetch(...)` and `await response.json()`.
A method is embedded as a function from the state before the call to an
`Outcome`: the value it returns (or the fact that it throws) and the state
after. The network is an oracle `Net` giving the answer to the k-th request.
`console.log` / `console.error` have no effect on the object and are left out.

Around the class, the file embeds the caller `ajouterAuPanier` (lines 212-256)
and the quantity control `changeQuantity` (lines 371-379) of `static/js/main.js`,
and the shipping fee `getShippingPrice` of `static/js/address-form.js`.
-/

namespace Cart

/-- One line of the cart, as the server serialises it. -/
structure LineItem where
  id : Int
  product_id : Int
  nom : String
  prix : Int
  image : String
  contenant : String
  type : String
  quantite : Int
deriving DecidableEq, Repr

/-- The object literal handed to `Panier.ajouter` (lines 239-247): a line without a
server-assigned `id`. -/
structure Produit where
  product_id : Int
  nom : String
  prix : Int
  image : String
  contenant : String
  type : String
  quantite : Int
deriving DecidableEq, Repr

/-! ## Numbers

The numbers the code computes with are JavaScript numbers, that is IEEE 754
doubles. An integer that reaches the code (a numeric field `prix` or `quantite`
of a line, the digits of the quantity input, a delta) is read as the nearest
double (`arrondi`), which is the integer itself up to 2^53 in absolute value;
sums and products are rounded to the nearest double, ties to even, with a
significand of 53 bits. -/

/-- A JavaScript number without a fraction: a finite double whose value is the
integer `x` (both zeros are `fini 0`), an infinity, or NaN. -/
inductive Nombre where
  | fini (x : Int)
  | infini (negatif : Bool)
  | nan
deriving DecidableEq, Repr

/-- A numeral read as a `Nombre` is the finite number of that value. -/
instance (n : Nat) : OfNat Nombre n := ⟨.fini n⟩

/-- The number of binary digits of `n` beyond the 53rd: how many halvings bring
`n` below 2^53. The first argument bounds the number of halvings; `n` itself is
always enough. -/
def decalage : Nat → Nat → Nat
  | 0, _ => 0
  | fuel + 1, n => if n < 2 ^ 53 then 0 else decalage fuel (n / 2) + 1

/-- The double nearest to a natural number above 2^53, ties to even: the number
keeps its 53 leading binary digits, the digits below are rounded away. -/
def arrondiNat (n : Nat) : Nat :=
  let d := decalage n n
  let q := n / 2 ^ d
  let reste := n % 2 ^ d
  let moitie := 2 ^ (d - 1)
  if moitie < reste ∨ (reste = moitie ∧ q % 2 = 1) then (q + 1) * 2 ^ d
  else q * 2 ^ d

/-- The first power of two that no finite double reaches, 2^1024. -/
def plafond : Nat :=
  2 ^ 256 * 2 ^ 256 * 2 ^ 256 * 2 ^ 256

/-- The double nearest to the integer `x`: `x` itself up to 2^53 in absolute
value, the rounded value beyond, and an infinity once the rounded value
reaches 2^1024. -/
def arrondi (x : Int) : Nombre :=
  if x.natAbs ≤ 2 ^ 53 then .fini x
  else if plafond ≤ arrondiNat x.natAbs then .infini (decide (x < 0))
  else if x < 0 then .fini (-(arrondiNat x.natAbs : Int))
  else .fini (arrondiNat x.natAbs : Int)

/-- The sum `a + b` of two numbers, as JavaScript computes it. -/
def Nombre.plus : Nombre → Nombre → Nombre
  | .fini a, .fini b => arrondi (a + b)
  | .fini _, .infini s => .infini s
  | .infini s, .fini _ => .infini s
  | .infini s, .infini t => if s = t then .infini s else .nan
  | .nan, _ => .nan
  | _, .nan => .nan

/-- The product `a * b` of two numbers, as JavaScript computes it. -/
def Nombre.fois : Nombre → Nombre → Nombre
  | .fini a, .fini b => arrondi (a * b)
  | .fini a, .infini s => if a = 0 then .nan else .infini (s != decide (a < 0))
  | .infini s, .fini b => if b = 0 then .nan else .infini (s != decide (b < 0))
  | .infini s, .infini t => .infini (s != t)
  | .nan, _ => .nan
  | _, .nan => .nan

/-- The `fetch` calls of the file that concern the cart. -/
inductive Request where
  /-- The call `fetch('/api/cart')`. -/
  | getCart
  /-- The call `fetch('/api/cart', {method: 'POST', body: JSON.stringify(produit)})`. -/
  | postCart (body : Produit)
  /-- The call `fetch('/api/cart/product/' + productId, {method: 'DELETE'})`. -/
  | deleteProduct (productId : Int)
  /-- The call `fetch('/api/cart/' + itemId, {method: 'PUT', body: JSON.stringify(...)})`. -/
  | putItem (itemId : Int) (body : LineItem)
  /-- The call `fetch('/api/login_status')`. -/
  | loginStatus
deriving DecidableEq, Repr

/-- Method invocations, recorded on entry (observation only). -/
inductive Call where
  | charger
  | ajouter (produit : Produit)
  | retirer (itemId : Int)
  | mettreAJourQuantite (itemId : Int) (quantite : Int)
  | vider
deriving DecidableEq, Repr

/-- What the surroundings can observe of a run, in order. -/
inductive Event where
  /-- A method of `Panier` was entered. -/
  | call (c : Call)
  /-- A request left through `fetch`. -/
  | fetch (r : Request)
  /-- A call of `alert(...)`. -/
  | alert
  /-- The assignment `window.location.href = '/login'`. -/
  | redirect
deriving DecidableEq, Repr

/-- The result of `await fetch(...)` followed by `await response.json()`.
`networkError`: the promise of `fetch` rejects. `http status json`: it resolves
with that status; `json` is the value `response.json()` resolves to, `none` when
that promise rejects (the body is not usable JSON). -/
inductive Response (β : Type) where
  | networkError
  | http (status : Nat) (json : Option β)
deriving DecidableEq, Repr

/-- The getter `response.ok`: the status is in the range 200-299. -/
def Response.okStatus (status : Nat) : Bool :=
  decide (200 ≤ status) && decide (status ≤ 299)

/-- The remote side. The k-th request of a run (counting from 0) is answered by
entry k of the table of its endpoint. `cart` answers `GET /api/cart` with a JSON
array of lines; `mutation` answers POST, DELETE and PUT with an object whose
field `cart` is `some xs` when it is an array and `none` when it is missing or
falsy; `login` answers `GET /api/login_status`. -/
structure Net where
  cart : Nat → Response (List LineItem)
  mutation : Nat → Response (Option (List LineItem))
  login : Nat → Response Unit

/-- The object `panier` with what is observed around it: `items` and `loading`
are the two fields of the class; `badge` is the number last written into the
`.badge` element (`none` when the page has none); `trace` is the log of
observable events. -/
structure Panier where
  items : List LineItem
  loading : Bool
  badge : Option Nombre
  trace : List Event
deriving DecidableEq, Repr

/-- How an `async` method ends: its promise resolves with a value, or rejects. -/
inductive Outcome (α : Type) where
  | returned (value : α) (s : Panier)
  | thrown (s : Panier)
deriving DecidableEq, Repr

namespace Panier

/-- The fields as lines 45-46 of the constructor set them, on a page whose badge
shows `badge`. Line 47 then calls `init`: see `constructeur`. -/
def nouveau (badge : Option Nombre) : Panier :=
  { items := [], loading := false, badge := badge, trace := [] }

/-- Append an event to the log. -/
def log (s : Panier) (e : Event) : Panier :=
  { s with trace := s.trace ++ [e] }

/-- The request of an event, if it is one. -/
def requestOf : Event → Option Request
  | .fetch r => some r
  | _ => none

/-- The call of an event, if it is one. -/
def callOf : Event → Option Call
  | .call c => some c
  | _ => none

/-- The requests sent so far, oldest first. -/
def requests (s : Panier) : List Request :=
  s.trace.filterMap requestOf

/-- The method calls made so far, oldest first. -/
def calls (s : Panier) : List Call :=
  s.trace.filterMap callOf

/-- The number of requests sent so far: the index of the next one. -/
def sent (s : Panier) : Nat :=
  s.requests.length

/-- The number of times the page was sent to `/login`. -/
def redirects (s : Panier) : Nat :=
  s.trace.count Event.redirect

/-- The number of invocations of `charger` so far. -/
def loads (s : Panier) : Nat :=
  s.calls.count Call.charger

/-- Lines 188-190: `this.items.reduce((total, item) => total + item.quantite, 0)`. -/
def obtenirNombreItems (s : Panier) : Nombre :=
  s.items.foldl (fun total item => total.plus (arrondi item.quantite)) (.fini 0)

/-- Lines 182-186: `this.items.reduce((total, item) => total + item.prix * item.quantite, 0)`. -/
def obtenirTotal (s : Panier) : Nombre :=
  s.items.foldl
    (fun total item => total.plus ((arrondi item.prix).fois (arrondi item.quantite)))
    (.fini 0)

/-- Lines 192-197: write the item count into the badge when there is one. -/
def mettreAJourBadge (s : Panier) : Panier :=
  { s with badge := s.badge.map (fun _ => s.obtenirNombreItems) }

/-- The lookup `this.items.find(item => item.id == itemId)`: the first line with that id. -/
def trouver (s : Panier) (itemId : Int) : Option LineItem :=
  s.items.find? (fun item => item.id == itemId)

/-- The expression `data.cart || []`. -/
def cartOr (cart : Option (List LineItem)) : List LineItem :=
  cart.getD []

/-- How a call of `charger` stands once it has run up to its first `await`. -/
inductive Started where
  /-- Line 56: the guard returned at once. -/
  | skipped (s : Panier)
  /-- Lines 57-60: the flag is set and the GET is on its way. -/
  | pending (s : Panier)
deriving DecidableEq, Repr

/-- The state a started call leaves behind. -/
def Started.state : Started → Panier
  | .skipped s => s
  | .pending s => s

/-- Lines 55-60: `charger` up to `await fetch('/api/cart')`. -/
def chargerBegin (s : Panier) : Started :=
  let s := s.log (.call .charger)
  if s.loading then .skipped s
  else .pending ({ s with loading := true }.log (.fetch .getCart))

/-- Lines 60-66, the body of `try` from the arrival of the answer on. -/
def chargerTry (r : Response (List LineItem)) (s : Panier) : Outcome Unit :=
  match r with
  | .networkError => .thrown s
  | .http status json =>
    if Response.okStatus status then
      match json with
      | none => .thrown s
      | some xs => .returned () { s with items := xs }
    else .returned () { s with items := [] }

/-- Lines 59-74 from the arrival of the answer on: `try`, `catch`, `finally`
and `return this.items`. -/
def chargerResume (r : Response (List LineItem)) (s : Panier) : Outcome (Option (List LineItem)) :=
  let s := match chargerTry r s with
    | .returned _ s => s
    | .thrown s => { s with items := [] }
  let s := { s with loading := false }
  .returned (some s.items) s

/-- Lines 55-75, run without interruption. The value is `none` for the bare
`return` of the guard. -/
def charger (net : Net) (s : Panier) : Outcome (Option (List LineItem)) :=
  match chargerBegin s with
  | .skipped s1 => .returned none s1
  | .pending s1 => chargerResume (net.cart s.sent) s1

/-- Lines 44-48: what `new Panier()` hands to its caller. After the fields are
set, line 47 calls `init`, which runs `charger` up to its `await`: the object
has a load in flight. -/
def constructeur (badge : Option Nombre) : Panier :=
  (chargerBegin (nouveau badge)).state

/-- Lines 50-53: `init()`, run without interruption: `charger`, then the badge. -/
def init (net : Net) (s : Panier) : Outcome Unit :=
  match charger net s with
  | .returned _ s1 => .returned () s1.mettreAJourBadge
  | .thrown s1 => .thrown s1

/-- Lines 80-109, the body of `try` in `ajouter`. In the failure branch
`response.json().catch(() => ({}))` cannot reject, so the body plays no part. -/
def ajouterTry (net : Net) (produit : Produit) (s : Panier) : Outcome Bool :=
  let s1 := s.log (.fetch (.postCart produit))
  match net.mutation s.sent with
  | .networkError => .thrown s1
  | .http status json =>
    if Response.okStatus status then
      match json with
      | none => .thrown s1
      | some cart => .returned true ({ s1 with items := cartOr cart }.mettreAJourBadge)
    else if status = 401 then
      .returned false ((s1.log .alert).log .redirect)
    else .returned false s1

/-- Lines 77-114: `ajouter(produit)`; the `catch` turns a rejection into `false`. -/
def ajouter (net : Net) (produit : Produit) (s : Panier) : Outcome Bool :=
  match ajouterTry net produit (s.log (.call (.ajouter produit))) with
  | .returned b s1 => .returned b s1
  | .thrown s1 => .returned false s1

/-- The pair `await this.charger(); return false;` as it stands at lines 121-122, 140-141
and 146-147: a rejection of `charger` is passed on. -/
def chargerPuisFaux (net : Net) (s : Panier) : Outcome Bool :=
  match charger net s with
  | .returned _ s1 => .returned false s1
  | .thrown s1 => .thrown s1

/-- Lines 128-142, the body of `try` in `retirer`. -/
def retirerTry (net : Net) (productId : Int) (s : Panier) : Outcome Bool :=
  let s1 := s.log (.fetch (.deleteProduct productId))
  match net.mutation s.sent with
  | .networkError => .thrown s1
  | .http status json =>
    if Response.okStatus status then
      match json with
      | none => .thrown s1
      | some cart => .returned true ({ s1 with items := cartOr cart }.mettreAJourBadge)
    else chargerPuisFaux net s1

/-- Lines 116-149: `retirer(itemId)`. -/
def retirer (net : Net) (itemId : Int) (s : Panier) : Outcome Bool :=
  let s0 := s.log (.call (.retirer itemId))
  match s0.trouver itemId with
  | none => chargerPuisFaux net s0
  | some item =>
    match retirerTry net item.product_id s0 with
    | .returned b s1 => .returned b s1
    | .thrown s1 => chargerPuisFaux net s1

/-- Lines 153-175, the body of `try` in `mettreAJourQuantite`; the body sent is
`{...item, quantite: quantite}`. -/
def mettreAJourQuantiteTry (net : Net) (itemId quantite : Int) (s : Panier) : Outcome Bool :=
  match s.trouver itemId with
  | none => .returned false s
  | some item =>
    let s1 := s.log (.fetch (.putItem itemId { item with quantite := quantite }))
    match net.mutation s.sent with
    | .networkError => .thrown s1
    | .http status json =>
      if Response.okStatus status then
        match json with
        | none => .thrown s1
        | some cart => .returned true ({ s1 with items := cartOr cart }.mettreAJourBadge)
      else .returned false s1

/-- Lines 151-180: `mettreAJourQuantite(itemId, quantite)`. -/
def mettreAJourQuantite (net : Net) (itemId quantite : Int) (s : Panier) : Outcome Bool :=
  match mettreAJourQuantiteTry net itemId quantite (s.log (.call (.mettreAJourQuantite itemId quantite))) with
  | .returned b s1 => .returned b s1
  | .thrown s1 => .returned false s1

/-- Lines 202-204: the loop of `vider` over the snapshot; a rejection of
`retirer` ends it. -/
def viderBoucle (net : Net) : List LineItem → Panier → Outcome Unit
  | [], s => .returned () s
  | item :: reste, s =>
    match retirer net item.id s with
    | .returned _ s1 => viderBoucle net reste s1
    | .thrown s1 => .thrown s1

/-- Lines 199-205: `vider()`, over the copy `[...this.items]` taken on entry. -/
def vider (net : Net) (s : Panier) : Outcome Unit :=
  viderBoucle net s.items (s.log (.call .vider))

/-- A caller awaiting `ajouter` for each product of a list in turn, as the loop
at lines 343-353 does; the values returned are collected in order. -/
def ajouterSuite (net : Net) : List Produit → Panier → Outcome (List Bool)
  | [], s => .returned [] s
  | produit :: reste, s =>
    match ajouter net produit s with
    | .thrown s1 => .thrown s1
    | .returned b s1 =>
      match ajouterSuite net reste s1 with
      | .thrown s2 => .thrown s2
      | .returned bs s2 => .returned (b :: bs) s2

/-! ## States reached inside the methods -/

/-- The state `ajouter` leaves after a success answer carrying `cart`. -/
def apresAjout (produit : Produit) (cart : Option (List LineItem)) (s : Panier) : Panier :=
  { ((s.log (.call (.ajouter produit))).log (.fetch (.postCart produit))) with
      items := cartOr cart }.mettreAJourBadge

/-- The state of `retirer` once its DELETE has left. -/
def apresDelete (itemId productId : Int) (s : Panier) : Panier :=
  (s.log (.call (.retirer itemId))).log (.fetch (.deleteProduct productId))

/-- The DELETE of `retirer` is answered with a failure: the request could not
be made, the status is not a success, or the body of a success cannot be read. -/
def echec (r : Response (Option (List LineItem))) : Prop :=
  r = .networkError ∨ (∃ status json, r = .http status json ∧ Response.okStatus status = false) ∨
    (∃ status, r = .http status none)

/-- The state of `mettreAJourQuantite` once its PUT has left. -/
def apresPut (itemId quantite : Int) (item : LineItem) (s : Panier) : Panier :=
  (s.log (.call (.mettreAJourQuantite itemId quantite))).log
    (.fetch (.putItem itemId { item with quantite := quantite }))

/-! ## Observations on a run -/

/-- The id handed to `retirer`, when the call is one of `retirer`. -/
def retirerOf : Call → Option Int
  | .retirer itemId => some itemId
  | _ => none

/-- The ids `retirer` was called with so far, oldest first. -/
def retraits (s : Panier) : List Int :=
  s.calls.filterMap retirerOf

/-- Whether a request is a DELETE. -/
def estDelete : Request → Bool
  | .deleteProduct _ => true
  | _ => false

/-- The cart that the answer to request number `k` carries, when that answer is
a success whose body can be read: the array itself for the GET, `data.cart || []`
for POST, DELETE and PUT. -/
def carried (net : Net) (k : Nat) : Request → Option (List LineItem)
  | .getCart =>
    match net.cart k with
    | .http status (some xs) => if Response.okStatus status then some xs else none
    | _ => none
  | .postCart _ | .deleteProduct _ | .putItem _ _ =>
    match net.mutation k with
    | .http status (some cart) => if Response.okStatus status then some (cartOr cart) else none
    | _ => none
  | .loginStatus => none

/-- The cart of the latest success among the requests `rs`, numbered from `k`
on; `acc` is the cart of the latest success before them. -/
def dernierDepuis (net : Net) : Nat → List Request → Option (List LineItem) →
    Option (List LineItem)
  | _, [], acc => acc
  | k, r :: rs, acc =>
    dernierDepuis net (k + 1) rs
      (match carried net k r with
        | some c => some c
        | none => acc)

/-- The cart carried by the most recent successful answer of the run, if any. -/
def dernierRetour (net : Net) (s : Panier) : Option (List LineItem) :=
  dernierDepuis net 0 s.requests none

/-- The cart mirrors the server: no load is in flight, and the cart is empty or
is the cart carried by the most recent successful answer. -/
def Miroir (net : Net) (s : Panier) : Prop :=
  s.loading = false ∧ (s.items = [] ∨ dernierRetour net s = some s.items)

/-- The policy of the specification for one answered request, in its words: a
load that succeeds replaces the cart with the returned sequence, a load that
fails (transport failure or non-success status) sets it to empty; an add, a
removal or an update that succeeds replaces the cart with the cart returned,
and one that fails leaves it as it was. `avant` is the cart before the answer;
a success is a status from 200 to 299 with a body that can be read. -/
def politique (net : Net) (k : Nat) (r : Request) (avant : List LineItem) : List LineItem :=
  match r with
  | .getCart =>
    match net.cart k with
    | .http status (some xs) => if 200 ≤ status ∧ status ≤ 299 then xs else []
    | _ => []
  | .postCart _ | .deleteProduct _ | .putItem _ _ =>
    match net.mutation k with
    | .http status (some (some xs)) => if 200 ≤ status ∧ status ≤ 299 then xs else avant
    | .http status (some none) => if 200 ≤ status ∧ status ≤ 299 then [] else avant
    | _ => avant
  | .loginStatus => avant

/-- The cart the policy of the specification leads to, from the cart `avant`,
once the requests `rs`, numbered from `k` on, have been answered in turn. -/
def attendu (net : Net) : Nat → List Request → List LineItem → List LineItem
  | _, [], avant => avant
  | k, r :: rs, avant => attendu net (k + 1) rs (politique net k r avant)

/-- The cart is the one the policy of the specification prescribes for the
requests answered so far, and no load is in flight. -/
def Fidele (net : Net) (s : Panier) : Prop :=
  s.loading = false ∧ s.items = attendu net 0 s.requests []

/-- One operation of the class, awaited by a caller; the value is dropped. -/
def appeler (net : Net) (c : Call) (s : Panier) : Outcome Unit :=
  match c with
  | .charger =>
    match charger net s with
    | .returned _ s1 => .returned () s1
    | .thrown s1 => .thrown s1
  | .ajouter produit =>
    match ajouter net produit s with
    | .returned _ s1 => .returned () s1
    | .thrown s1 => .thrown s1
  | .retirer itemId =>
    match retirer net itemId s with
    | .returned _ s1 => .returned () s1
    | .thrown s1 => .thrown s1
  | .mettreAJourQuantite itemId quantite =>
    match mettreAJourQuantite net itemId quantite s with
    | .returned _ s1 => .returned () s1
    | .thrown s1 => .thrown s1
  | .vider => vider net s

/-- A caller awaiting a list of operations one after the other; a rejection
ends the run. -/
def suite (net : Net) : List Call → Panier → Outcome Unit
  | [], s => .returned () s
  | c :: reste, s =>
    match appeler net c s with
    | .returned _ s1 => suite net reste s1
    | .thrown s1 => .thrown s1

end Panier

/-! ## The page around the cart -/

/-- The global `panier` of line 209 together with the flash messages shown by
`afficherMessage` (text and type, oldest first). -/
structure Page where
  panier : Panier
  messages : List (String × String)
deriving DecidableEq, Repr

/-- How `ajouterAuPanier` ends. -/
inductive Issue where
  | returned (p : Page)
  | thrown (p : Page)
deriving DecidableEq, Repr

/-- Lines 259-281: `afficherMessage(message, type)` adds one flash message; the
timers that fade it touch nothing else. -/
def afficherMessage (message type : String) (p : Page) : Page :=
  { p with messages := p.messages ++ [(message, type)] }

/-- Lines 212-256: `ajouterAuPanier(produitId, nom, prix, image, contenant)`. The
`try` holds the probe `fetch('/api/login_status')` and `authResponse.json()`;
its `catch` shows a message and returns. -/
def ajouterAuPanier (net : Net) (produitId : Int) (nom : String) (prix : Int)
    (image contenant : String) (p : Page) : Issue :=
  let s1 := p.panier.log (.fetch .loginStatus)
  match net.login p.panier.sent with
  | .networkError =>
    .returned (afficherMessage "Erreur de connexion. Veuillez réessayer." "error"
      { p with panier := s1 })
  | .http status json =>
    if Response.okStatus status then
      match json with
      | none =>
        .returned (afficherMessage "Erreur de connexion. Veuillez réessayer." "error"
          { p with panier := s1 })
      | some _ =>
        match Panier.ajouter net
          { product_id := produitId, nom := nom, prix := prix, image := image,
            contenant := contenant, type := "predefined", quantite := 1 } s1 with
        | .returned true s2 =>
          .returned (afficherMessage "Produit ajouté au panier !" "success"
            { p with panier := s2 })
        | .returned false s2 =>
          .returned (afficherMessage "Erreur lors de l'ajout au panier. Veuillez réessayer."
            "error" { p with panier := s2 })
        | .thrown s2 => .thrown { p with panier := s2 }
    else
      let p1 := afficherMessage "Veuillez vous connecter pour ajouter des produits au panier."
        "error" { p with panier := s1 }
      .returned { p1 with panier := p1.panier.log .redirect }

/-- Lines 371-379: `changeQuantity(delta)`. The argument `input` is the integer
written in the element `quantity` (`none` when the page has no such element);
`parseInt` reads it into a double, `delta` is added to that double, and the sum
is written back when it lies between 1 and 10. -/
def changeQuantity (delta : Int) (input : Option Int) : Option Int :=
  match input with
  | none => none
  | some value =>
    match (arrondi value).plus (arrondi delta) with
    | .fini newValue => if 1 ≤ newValue ∧ newValue ≤ 10 then some newValue else some value
    | .infini _ => some value
    | .nan => some value

/-- A run of `changeQuantity` calls, one per delta. -/
def changeQuantitySuite (deltas : List Int) (input : Option Int) : Option Int :=
  deltas.foldl (fun courant delta => changeQuantity delta courant) input

/-- An option of the region select (lines 3-14). -/
structure Region where
  value : String
  label : String
deriving DecidableEq, Repr

/-- Lines 2-15 of `static/js/address-form.js`. -/
def REGIONS_BY_COUNTRY : List (String × List Region) :=
  [ ("Grande Comore", [⟨"Moroni", "Moroni"⟩, ⟨"Hors Moroni", "Hors Moroni"⟩]),
    ("Anjouan", [⟨"Mutsamudu", "Mutsamudu"⟩, ⟨"Hors Mutsamudu", "Hors Mutsamudu"⟩]),
    ("Mohéli", [⟨"Fomboni", "Fomboni"⟩, ⟨"Hors Fomboni", "Hors Fomboni"⟩]) ]

/-- Lines 18-25 of `static/js/address-form.js`: the table as it stands until
`loadShippingPrices` replaces it. -/
def SHIPPING_PRICES : List (String × Int) :=
  [ ("Moroni", 1500), ("Hors Moroni", 2000), ("Mutsamudu", 2500),
    ("Hors Mutsamudu", 3000), ("Fomboni", 3200), ("Hors Fomboni", 3500) ]

/-- Line 115 of `static/js/address-form.js`. -/
def islands : List String :=
  ["Grande Comore", "Anjouan", "Mohéli"]

/-- The names of the members that every plain object, `SHIPPING_PRICES` included,
inherits from `Object.prototype`: an index by one of them finds the inherited
member when the object has no entry of its own under that name. -/
def membresHerites : List String :=
  ["constructor", "hasOwnProperty", "isPrototypeOf", "propertyIsEnumerable",
    "toLocaleString", "toString", "valueOf", "__proto__", "__defineGetter__",
    "__defineSetter__", "__lookupGetter__", "__lookupSetter__"]

/-- What `getShippingPrice` returns: a number, or the member of
`Object.prototype` of that name (a function or an object, never a number). -/
inductive Frais where
  | nombre (prix : Int)
  | membre (nom : String)
deriving DecidableEq, Repr

/-- Lines 114-120 of `static/js/address-form.js`: `getShippingPrice(country, region)`
over the current table `prices`, the entries of the object itself, with integer
prices. A string is truthy unless empty; a price is truthy unless 0; an
inherited member is truthy. -/
def getShippingPrice (prices : List (String × Int)) (country region : String) : Frais :=
  if islands.contains country && region != "" then
    match prices.lookup region with
    | some price => if price != 0 then .nombre price else .nombre 0
    | none => if membresHerites.contains region then .membre region else .nombre 0
  else .nombre 0

namespace Panier

/-! ## Sample data -/

/-- A line with id 1 for product 10: two units at 1500. -/
def ligneA : LineItem :=
  { id := 1, product_id := 10, nom := "Rose", prix := 1500, image := "rose.png",
    contenant := "boite", type := "predefined", quantite := 2 }

/-- A line with id 2 for product 20: one unit at 900. -/
def ligneB : LineItem :=
  { id := 2, product_id := 20, nom := "Lys", prix := 900, image := "lys.png",
    contenant := "panier", type := "predefined", quantite := 1 }

/-- What a caller adds for product 10. -/
def produitA : Produit :=
  { product_id := 10, nom := "Rose", prix := 1500, image := "rose.png",
    contenant := "boite", type := "predefined", quantite := 1 }

/-- A cart holding `ligneA`, idle, on a page with a badge showing 2. -/
def panierA : Panier :=
  { items := [ligneA], loading := false, badge := some 2, trace := [] }

/-- The cart `panierA` while a load is in flight. -/
def panierEnCours : Panier :=
  { panierA with loading := true }

/-- A server that answers every request with status 500. -/
def net500 : Net :=
  { cart := fun _ => .http 500 none, mutation := fun _ => .http 500 none,
    login := fun _ => .http 500 none }

/-- A server that answers every mutation with status 401 and every GET with 200 and `[ligneB]`. -/
def net401 : Net :=
  { cart := fun _ => .http 200 (some [ligneB]), mutation := fun _ => .http 401 none,
    login := fun _ => .http 401 none }

/-- A server that answers every request with 200; carts hold `ligneB` alone. -/
def net200 : Net :=
  { cart := fun _ => .http 200 (some [ligneB]), mutation := fun _ => .http 200 (some (some [ligneB])),
    login := fun _ => .http 200 (some ()) }

/-- A server that cannot be reached. -/
def netCoupe : Net :=
  { cart := fun _ => .networkError, mutation := fun _ => .networkError,
    login := fun _ => .networkError }

/-- Two lines share id 1; the first is for product 10, the second for product 99. -/
def panierDouble : Panier :=
  { items := [ligneB, ligneA, { ligneA with product_id := 99 }], loading := false,
    badge := none, trace := [] }

/-- A line with id 3 for product 30: four units at 500. -/
def ligneC : LineItem :=
  { id := 3, product_id := 30, nom := "Iris", prix := 500, image := "iris.png",
    contenant := "vase", type := "predefined", quantite := 4 }

/-- A cart of three lines, idle, without a badge. -/
def panierTrois : Panier :=
  { items := [ligneA, ligneB, ligneC], loading := false, badge := none, trace := [] }

/-- A server for a run of `vider` on `panierTrois`: the first DELETE succeeds
and leaves `[ligneB, ligneC]`, the second request (a DELETE) is answered 500, the
reload after it succeeds with `[ligneB, ligneC]`, and the last DELETE succeeds
and leaves `[ligneB]`. -/
def netDeuxiemeEchec : Net :=
  { cart := fun _ => .http 200 (some [ligneB, ligneC]),
    mutation := fun k =>
      if k = 0 then .http 200 (some (some [ligneB, ligneC]))
      else if k = 1 then .http 500 none
      else .http 200 (some (some [ligneB])),
    login := fun _ => .http 200 (some ()) }

/-- A server for a run of `vider` on `panierTrois`: the first DELETE succeeds
and leaves `[ligneB, ligneC]`; every later request is answered 500. -/
def netPanne : Net :=
  { cart := fun _ => .http 500 none,
    mutation := fun k => if k = 0 then .http 200 (some (some [ligneB, ligneC])) else .http 500 none,
    login := fun _ => .http 500 none }

/-- A server that answers every mutation with 200 and `ligneA` at quantity 3. -/
def netEcho : Net :=
  { cart := fun _ => .http 200 (some [{ ligneA with quantite := 3 }]),
    mutation := fun _ => .http 200 (some (some [{ ligneA with quantite := 3 }])),
    login := fun _ => .http 200 (some ()) }

/-- A server whose first answer, to a GET, is 200 with `[ligneB]`, and that
answers 500 from then on. -/
def netPuisPanne : Net :=
  { cart := fun k => if k = 0 then .http 200 (some [ligneB]) else .http 500 none,
    mutation := fun _ => .http 500 none,
    login := fun _ => .http 500 none }

/-- A server that refuses every mutation with 500 and answers every GET with 200
and `[ligneB]`. -/
def netRefus : Net :=
  { cart := fun _ => .http 200 (some [ligneB]), mutation := fun _ => .http 500 none,
    login := fun _ => .http 500 none }

/-- The page of `panierA` with no message shown. -/
def pageA : Page :=
  { panier := panierA, messages := [] }

/-- A line with id 4 whose quantity is 2^53 - 1, the largest odd integer a
double holds. -/
def ligneGrande : LineItem :=
  { id := 4, product_id := 40, nom := "Jasmin", prix := 1, image := "jasmin.png",
    contenant := "boite", type := "predefined", quantite := 9007199254740991 }

/-- A line with id 5 and quantity 2. -/
def ligneDeux : LineItem :=
  { id := 5, product_id := 50, nom := "Muguet", prix := 1, image := "muguet.png",
    contenant := "boite", type := "predefined", quantite := 2 }

/-- A line with id 6: three units at a price of 2^53 - 1. -/
def lignePrix : LineItem :=
  { id := 6, product_id := 60, nom := "Orchis", prix := 9007199254740991,
    image := "orchis.png", contenant := "vase", type := "predefined", quantite := 3 }

/-- A cart of `ligneGrande` and `ligneDeux`: the exact sum of the quantities is
2^53 + 1. -/
def panierGrand : Panier :=
  { items := [ligneGrande, ligneDeux], loading := false, badge := none, trace := [] }

/-- A cart of `lignePrix` alone. -/
def panierPrix : Panier :=
  { items := [lignePrix], loading := false, badge := none, trace := [] }

/-- A server that answers every request with 200 and the cart
`[ligneGrande, ligneDeux]`. -/
def netGrand : Net :=
  { cart := fun _ => .http 200 (some [ligneGrande, ligneDeux]),
    mutation := fun _ => .http 200 (some (some [ligneGrande, ligneDeux])),
    login := fun _ => .http 200 (some ()) }

/-! ## Bookkeeping lemmas -/

@[simp]
theorem log_items (s : Panier) (e : Event) : (s.log e).items = s.items := rfl

@[simp]
theorem log_loading (s : Panier) (e : Event) : (s.log e).loading = s.loading := rfl

@[simp]
theorem log_badge (s : Panier) (e : Event) : (s.log e).badge = s.badge := rfl

@[simp]
theorem log_trace (s : Panier) (e : Event) : (s.log e).trace = s.trace ++ [e] := rfl

@[simp]
theorem log_trouver (s : Panier) (e : Event) (itemId : Int) :
    (s.log e).trouver itemId = s.trouver itemId := rfl

@[simp]
theorem log_call_requests (s : Panier) (c : Call) :
    (s.log (.call c)).requests = s.requests := by
  simp [requests, requestOf, List.filterMap_append]

@[simp]
theorem log_fetch_requests (s : Panier) (r : Request) :
    (s.log (.fetch r)).requests = s.requests ++ [r] := by
  simp [requests, requestOf, List.filterMap_append]

@[simp]
theorem log_call_sent (s : Panier) (c : Call) : (s.log (.call c)).sent = s.sent := by
  simp [sent]

@[simp]
theorem log_fetch_sent (s : Panier) (r : Request) : (s.log (.fetch r)).sent = s.sent + 1 := by
  simp [sent]

@[simp]
theorem log_call_calls (s : Panier) (c : Call) : (s.log (.call c)).calls = s.calls ++ [c] := by
  simp [calls, callOf, List.filterMap_append]

@[simp]
theorem log_fetch_calls (s : Panier) (r : Request) : (s.log (.fetch r)).calls = s.calls := by
  simp [calls, callOf, List.filterMap_append]

/-- The guard of `charger` passes exactly when no load is in flight. -/
theorem chargerBegin_idle (s : Panier) (h : s.loading = false) :
    chargerBegin s =
      .pending ({ (s.log (.call .charger)) with loading := true }.log (.fetch .getCart)) := by
  simp [chargerBegin, h]

/-- With a load in flight the guard of `charger` returns at once. -/
theorem chargerBegin_busy (s : Panier) (h : s.loading = true) :
    chargerBegin s = .skipped (s.log (.call .charger)) := by
  simp [chargerBegin, h]

/-- The second half of `charger` always resolves, with the flag cleared. -/
theorem chargerResume_returned (r : Response (List LineItem)) (s : Panier) :
    ∃ s1, chargerResume r s = .returned (some s1.items) s1 ∧ s1.loading = false ∧
      s1.trace = s.trace ∧ s1.badge = s.badge := by
  unfold chargerResume chargerTry
  rcases r with _ | ⟨status, json⟩
  · exact ⟨{ s with items := [], loading := false }, rfl, rfl, rfl, rfl⟩
  · by_cases hok : Response.okStatus status = true
    · rcases json with _ | xs
      · simp only [hok, if_true]
        exact ⟨{ s with items := [], loading := false }, rfl, rfl, rfl, rfl⟩
      · simp only [hok, if_true]
        exact ⟨{ s with items := xs, loading := false }, rfl, rfl, rfl, rfl⟩
    · simp only [hok]
      exact ⟨{ s with items := [], loading := false }, rfl, rfl, rfl, rfl⟩

/-- The promise of `charger` never rejects; the call adds itself to the log of
calls, sends nothing but at most one GET, and leaves the badge alone. -/
theorem charger_returned (net : Net) (s : Panier) :
    ∃ v s1, charger net s = .returned v s1 ∧ s1.calls = s.calls ++ [.charger] ∧
      s1.badge = s.badge ∧ s1.redirects = s.redirects ∧
      (s.loading = true → s1.items = s.items ∧ s1.loading = true ∧ s1.requests = s.requests) ∧
      (s.loading = false → s1.loading = false ∧ s1.requests = s.requests ++ [.getCart]) := by
  unfold charger
  cases h : s.loading
  · rw [chargerBegin_idle s h]
    obtain ⟨s1, h1, h2, h3, h4⟩ := chargerResume_returned (net.cart s.sent)
      ({ (s.log (.call .charger)) with loading := true }.log (.fetch .getCart))
    refine ⟨_, s1, h1, ?_, ?_, ?_, ?_, ?_⟩
    · simp [calls, h3, callOf, List.filterMap_append]
    · simp [h4]
    · simp [redirects, h3, List.count_append]
    · intro hc; cases hc
    · intro _
      refine ⟨h2, ?_⟩
      simp [requests, h3, requestOf, List.filterMap_append]
  · rw [chargerBegin_busy s h]
    refine ⟨none, _, rfl, by simp, by simp, ?_, ?_, ?_⟩
    · simp [redirects, List.count_append]
    · intro _; simp [h]
    · intro hc; cases hc

/-- What a call of `charger` does when no load is in flight. -/
theorem charger_idle (net : Net) (s : Panier) (h : s.loading = false) :
    ∃ v s1, charger net s = .returned v s1 ∧ s1.loading = false ∧
      s1.requests = s.requests ++ [.getCart] ∧
      (∀ status xs, net.cart s.sent = .http status (some xs) →
        Response.okStatus status = true → s1.items = xs) ∧
      (∀ status json, net.cart s.sent = .http status json →
        Response.okStatus status = false → s1.items = []) ∧
      (net.cart s.sent = .networkError → s1.items = []) := by
  unfold charger
  rw [chargerBegin_idle s h]
  unfold chargerResume chargerTry
  rcases hr : net.cart s.sent with _ | ⟨status, json⟩
  · refine ⟨_, _, rfl, rfl, by simp [requests, requestOf, List.filterMap_append], ?_, ?_, ?_⟩
    · intro status xs hc; cases hc
    · intro status json hc; cases hc
    · intro _; rfl
  · by_cases hok : Response.okStatus status = true
    · rcases json with _ | xs
      · simp only [hok, if_true]
        refine ⟨_, _, rfl, rfl, by simp [requests, requestOf, List.filterMap_append], ?_, ?_, ?_⟩
        · intro st xs hc; cases hc
        · intro st js hc hno; cases hc; simp [hok] at hno
        · intro hc; cases hc
      · simp only [hok, if_true]
        refine ⟨_, _, rfl, rfl, by simp [requests, requestOf, List.filterMap_append], ?_, ?_, ?_⟩
        · intro st ys hc _; cases hc; rfl
        · intro st js hc hno; cases hc; simp [hok] at hno
        · intro hc; cases hc
    · simp only [hok]
      refine ⟨_, _, rfl, rfl, by simp [requests, requestOf, List.filterMap_append], ?_, ?_, ?_⟩
      · intro st ys hc hyes; cases hc; exact absurd hyes hok
      · intro st js hc _; rfl
      · intro hc; cases hc

/-- C1. Whatever the cart held before, a call of `charger` with no load in flight
resolves (it does not reject), sends one GET and ends with the flag cleared; the
cart is then the array the server sent when the status is a success, and empty
when the status is not a success or the request could not be made. -/
theorem charger_replaces_or_empties (net : Net) (s : Panier) (h : s.loading = false) :
    ∃ v s1, charger net s = .returned v s1 ∧ s1.loading = false ∧
      s1.requests = s.requests ++ [.getCart] ∧
      (∀ status xs, net.cart s.sent = .http status (some xs) →
        Response.okStatus status = true → s1.items = xs) ∧
      (∀ status json, net.cart s.sent = .http status json →
        Response.okStatus status = false → s1.items = []) ∧
      (net.cart s.sent = .networkError → s1.items = []) :=
  charger_idle net s h

/-- C1 at work: `panierA` holds a line; the server answers 500; the cart ends empty. -/
theorem charger_replaces_or_empties_witness :
    panierA.loading = false ∧
      ∃ v s1, charger net500 panierA = .returned v s1 ∧ s1.loading = false ∧ s1.items = [] :=
  ⟨rfl, by
    obtain ⟨v, s1, h1, h2, _, _, h5, _⟩ := charger_replaces_or_empties net500 panierA rfl
    exact ⟨v, s1, h1, h2, h5 500 none rfl rfl⟩⟩

/-- C2. While a load is in flight a further call of `charger` does nothing: it
resolves at once, sends no request, and leaves the cart, the flag and the badge
as they were. Hence of two calls that overlap (the second made while the first
has run up to its `await`) the second always stops at the guard, and together
they send at most one GET, also once the first has been resumed. -/
theorem charger_single_flight (net : Net) (s : Panier) (h : s.loading = true) :
    (∃ s1, charger net s = .returned none s1 ∧ chargerBegin s = .skipped s1 ∧
        s1.items = s.items ∧ s1.loading = true ∧ s1.requests = s.requests ∧
        s1.badge = s.badge) ∧
    (∀ s0 : Panier, ∃ s2, chargerBegin (chargerBegin s0).state = .skipped s2 ∧
        s2.items = s0.items ∧
        s2.requests.length ≤ s0.requests.length + 1 ∧
        s2.requests.count .getCart ≤ s0.requests.count .getCart + 1 ∧
        ∀ r, ∃ v s3, chargerResume r s2 = .returned v s3 ∧ s3.requests = s2.requests) := by
  constructor
  · refine ⟨s.log (.call .charger), ?_, chargerBegin_busy s h, by simp, by simp [h], by simp, by simp⟩
    unfold charger
    rw [chargerBegin_busy s h]
  · intro s0
    have hres : ∀ (r : Response (List LineItem)) (s2 : Panier),
        ∃ v s3, chargerResume r s2 = .returned v s3 ∧ s3.requests = s2.requests := by
      intro r s2
      obtain ⟨s3, h1, _, h3, _⟩ := chargerResume_returned r s2
      exact ⟨_, s3, h1, by simp [requests, h3]⟩
    cases h0 : s0.loading
    · rw [chargerBegin_idle s0 h0]
      simp only [Started.state]
      rw [chargerBegin_busy _ (by simp)]
      refine ⟨_, rfl, by simp, ?_, ?_, fun r => hres r _⟩
      · simp [requests, requestOf, List.filterMap_append]
      · simp [requests, requestOf, List.filterMap_append, List.count_append]
    · rw [chargerBegin_busy s0 h0]
      simp only [Started.state]
      rw [chargerBegin_busy _ (by simp [h0])]
      refine ⟨_, rfl, by simp, by simp, by simp, fun r => hres r _⟩

/-- C2 at work: `panierEnCours` has a load in flight; a further call changes nothing. -/
theorem charger_single_flight_witness :
    panierEnCours.loading = true ∧
      ∃ s1, charger net200 panierEnCours = .returned none s1 ∧ s1.items = [ligneA] ∧
        s1.requests = [] :=
  ⟨rfl, by
    obtain ⟨⟨s1, h1, _, h3, _, h5, _⟩, _⟩ := charger_single_flight net200 panierEnCours rfl
    exact ⟨s1, h1, h3, h5⟩⟩

/-! ## Rounding -/

/-- An integer up to 2^53 in absolute value is held exactly. -/
theorem arrondi_exact (x : Int) (h : x.natAbs ≤ 2 ^ 53) : arrondi x = .fini x := by
  unfold arrondi
  rw [if_pos h]

/-- The halvings counted by `decalage` fit in the number. -/
theorem decalage_pow (fuel m : Nat) (h : 2 ^ 52 ≤ m) : 2 ^ (52 + decalage fuel m) ≤ m := by
  induction fuel generalizing m with
  | zero => simpa [decalage] using h
  | succ fuel ih =>
    unfold decalage
    split
    · simpa using h
    · have h2 : 2 ^ 52 ≤ m / 2 := by omega
      have h3 := ih (m / 2) h2
      calc 2 ^ (52 + (decalage fuel (m / 2) + 1))
          = 2 ^ (52 + decalage fuel (m / 2)) * 2 := by rw [← Nat.add_assoc, pow_succ]
        _ ≤ m / 2 * 2 := Nat.mul_le_mul_right 2 h3
        _ ≤ m := Nat.div_mul_le_self m 2

/-- From 2^53 on at least one halving is counted. -/
theorem decalage_pos (fuel m : Nat) (h : 2 ^ 53 ≤ m) : 1 ≤ decalage (fuel + 1) m := by
  unfold decalage
  rw [if_neg (by omega)]
  omega

/-- Rounding a natural number above 2^53 gives at least 2^53. -/
theorem arrondiNat_grand (n : Nat) (h : 2 ^ 53 < n) : 2 ^ 53 ≤ arrondiNat n := by
  obtain ⟨fuel, hfuel⟩ : ∃ fuel, n = fuel + 1 := ⟨n - 1, by omega⟩
  have hpos : 1 ≤ decalage n n := by
    have := decalage_pos fuel n (le_of_lt h)
    rwa [← hfuel] at this
  have hpow : 2 ^ (52 + decalage n n) ≤ n := decalage_pow n n (by omega)
  obtain ⟨d, hd⟩ : ∃ d, decalage n n = d + 1 := ⟨decalage n n - 1, by omega⟩
  have hq : 2 ^ 52 ≤ n / 2 ^ (d + 1) := by
    rw [Nat.le_div_iff_mul_le (by positivity)]
    calc 2 ^ 52 * 2 ^ (d + 1) = 2 ^ (52 + (d + 1)) := by rw [← pow_add]
      _ = 2 ^ (52 + decalage n n) := by rw [hd]
      _ ≤ n := hpow
  have hp : 2 ≤ 2 ^ (d + 1) := by
    calc 2 = 2 ^ 1 := by norm_num
      _ ≤ 2 ^ (d + 1) := Nat.pow_le_pow_right (by norm_num) (by omega)
  have hbase : 2 ^ 53 ≤ n / 2 ^ (d + 1) * 2 ^ (d + 1) := by
    calc 2 ^ 53 = 2 ^ 52 * 2 := by norm_num
      _ ≤ n / 2 ^ (d + 1) * 2 ^ (d + 1) := Nat.mul_le_mul hq hp
  unfold arrondiNat
  simp only [hd]
  split
  · calc 2 ^ 53 ≤ n / 2 ^ (d + 1) * 2 ^ (d + 1) := hbase
      _ ≤ (n / 2 ^ (d + 1) + 1) * 2 ^ (d + 1) := Nat.mul_le_mul_right _ (Nat.le_succ _)
  · exact hbase

/-- Rounding an integer beyond 2^53 never gives a finite number below 2^53. -/
theorem arrondi_grand (x : Int) (h : 2 ^ 53 < x.natAbs) (y : Int) (hy : arrondi x = .fini y) :
    2 ^ 53 ≤ y.natAbs := by
  have hnot : ¬ x.natAbs ≤ 2 ^ 53 := by omega
  have hbig := arrondiNat_grand x.natAbs h
  unfold arrondi at hy
  simp only [hnot, if_false] at hy
  split at hy
  · cases hy
  · split at hy
    · cases hy
      simpa using hbig
    · cases hy
      simpa using hbig

/-- The integer 2^53 + 1 lies halfway between two doubles and rounds to 2^53. -/
theorem arrondi_2p53_plus_1 : arrondi 9007199254740993 = .fini 9007199254740992 := by
  decide

/-- The integer 3 * (2^53 - 1) rounds down to the multiple of 4 below it. -/
theorem arrondi_3_fois : arrondi 27021597764222973 = .fini 27021597764222972 := by
  decide

/-- The reduce of `obtenirNombreItems`, started from a total `t`: when the
absolute values of the total and of the quantities sum to at most 2^53, no
reading and no addition rounds. -/
theorem foldl_quantite (xs : List LineItem) (t : Int)
    (hmax : t.natAbs + (xs.map (fun item => item.quantite.natAbs)).sum ≤ 2 ^ 53) :
    xs.foldl (fun (total : Nombre) (item : LineItem) => total.plus (arrondi item.quantite))
        (.fini t)
      = .fini (t + (xs.map (fun item => item.quantite)).sum) := by
  induction xs generalizing t with
  | nil => simp
  | cons x xs ih =>
    simp only [List.map_cons, List.sum_cons] at hmax
    have hread : arrondi x.quantite = .fini x.quantite := arrondi_exact _ (by omega)
    have hstep : (Nombre.fini t).plus (.fini x.quantite) = .fini (t + x.quantite) := by
      simp only [Nombre.plus]
      exact arrondi_exact _ (by omega)
    simp only [List.foldl_cons, hread, hstep, List.map_cons, List.sum_cons]
    rw [ih (t + x.quantite) (by omega)]
    congr 1
    omega

/-- The item count is the sum of the quantities when their absolute values sum
to at most 2^53. -/
theorem obtenirNombreItems_eq_sum (s : Panier)
    (hmax : (s.items.map (fun item => item.quantite.natAbs)).sum ≤ 2 ^ 53) :
    s.obtenirNombreItems = .fini (s.items.map (fun item => item.quantite)).sum := by
  unfold obtenirNombreItems
  rw [foldl_quantite s.items 0 (by simpa using hmax)]
  congr 1
  omega

/-- The count of `[ligneGrande, ligneDeux]` is 2^53, one less than the exact sum. -/
theorem count_grand (s : Panier) (h : s.items = [ligneGrande, ligneDeux]) :
    s.obtenirNombreItems = .fini 9007199254740992 := by
  unfold obtenirNombreItems
  rw [h]
  decide

/-- A success answer with a readable body makes `ajouter` install its cart. -/
theorem ajouter_success (net : Net) (produit : Produit) (s : Panier) (status : Nat)
    (cart : Option (List LineItem)) (hr : net.mutation s.sent = .http status (some cart))
    (hok : Response.okStatus status = true) :
    ajouter net produit s = .returned true (apresAjout produit cart s) := by
  simp [ajouter, ajouterTry, hr, hok, apresAjout]

theorem apresAjout_sent (produit : Produit) (cart : Option (List LineItem)) (s : Panier) :
    (apresAjout produit cart s).sent = s.sent + 1 := by
  simp [apresAjout, mettreAJourBadge, sent, requests, requestOf, List.filterMap_append]

theorem apresAjout_items (produit : Produit) (cart : Option (List LineItem)) (s : Panier) :
    (apresAjout produit cart s).items = cartOr cart := rfl

/-- A run of `ajouter` calls that are all answered with a success: every call
returns `true`, one request is sent per call, and the cart is that of the last answer. -/
theorem ajouterSuite_success (net : Net) (produits : List Produit) (s : Panier)
    (hok : ∀ k, k < produits.length → ∃ status cart,
      net.mutation (s.sent + k) = .http status (some cart) ∧ Response.okStatus status = true) :
    ∃ s1, ajouterSuite net produits s = .returned (List.replicate produits.length true) s1 ∧
      s1.sent = s.sent + produits.length ∧
      (produits ≠ [] → ∀ status cart,
        net.mutation (s.sent + (produits.length - 1)) = .http status (some cart) →
        s1.items = cartOr cart) := by
  induction produits generalizing s with
  | nil => exact ⟨s, rfl, rfl, fun h => absurd rfl h⟩
  | cons p ps ih =>
    obtain ⟨status0, cart0, hr0, hok0⟩ := hok 0 (by simp)
    rw [Nat.add_zero] at hr0
    have hstep := ajouter_success net p s status0 cart0 hr0 hok0
    have hsent := apresAjout_sent p cart0 s
    obtain ⟨s1, h1, h2, h3⟩ := ih (apresAjout p cart0 s) (by
      intro k hk
      obtain ⟨st, c, hr, ho⟩ := hok (k + 1) (by simpa using hk)
      refine ⟨st, c, ?_, ho⟩
      rw [hsent, Nat.add_assoc, Nat.add_comm 1 k]; exact hr)
    refine ⟨s1, ?_, ?_, ?_⟩
    · simp [ajouterSuite, hstep, h1, List.replicate_succ]
    · rw [h2, hsent]; simp [Nat.add_assoc, Nat.add_comm]
    · intro _ status cart hr
      by_cases hps : ps = []
      · subst hps
        simp only [List.length_singleton, Nat.sub_self, Nat.add_zero] at hr
        rw [hr0] at hr
        cases hr
        simp [ajouterSuite] at h1
        rw [← h1, apresAjout_items]
      · apply h3 hps status cart
        rw [hsent]
        have hpos : 0 < ps.length := List.length_pos.mpr hps
        have : s.sent + 1 + (ps.length - 1) = s.sent + ((p :: ps).length - 1) := by
          simp only [List.length_cons]; omega
        rw [this]; exact hr

/-- C3, as stated, fails: one add on `panierA` answered 200 with the cart
`[ligneGrande, ligneDeux]`, whose quantities are 2^53 - 1 and 2, returns `true`
and installs that cart, and `obtenirNombreItems()` is then 2^53, not the sum
2^53 + 1 of the quantities of the answer. -/
theorem ajouter_count_rounds :
    ∃ s1, ajouterSuite netGrand [produitA] panierA = .returned [true] s1 ∧
      s1.items = [ligneGrande, ligneDeux] ∧
      s1.obtenirNombreItems = .fini 9007199254740992 ∧
      s1.obtenirNombreItems ≠
        .fini ([ligneGrande, ligneDeux].map (fun item => item.quantite)).sum := by
  obtain ⟨s1, h1, _, h3⟩ := ajouterSuite_success netGrand [produitA] panierA
    (fun k _ => ⟨200, some [ligneGrande, ligneDeux], rfl, rfl⟩)
  have hitems : s1.items = [ligneGrande, ligneDeux] :=
    h3 (by simp) 200 (some [ligneGrande, ligneDeux]) rfl
  have hcount := count_grand s1 hitems
  refine ⟨s1, h1, hitems, hcount, ?_⟩
  rw [hcount]
  decide

/-- C3, amended. From any cart, a non-empty run of `ajouter` calls that each get a
success answer with a JSON body: each call returns `true`; afterwards the cart
is the one carried by the last answer (`data.cart || []`), whatever was sent and
whatever came before, and `obtenirNombreItems()` is the sum of the quantities in
it when their absolute values sum to at most 2^53 (so for quantities that are
not negative and sum to at most 2^53). -/
theorem ajouter_mirrors_last_response (net : Net) (produits : List Produit) (s : Panier)
    (hne : produits ≠ [])
    (hok : ∀ k, k < produits.length → ∃ status cart,
      net.mutation (s.sent + k) = .http status (some cart) ∧ Response.okStatus status = true) :
    ∃ s1, ajouterSuite net produits s = .returned (List.replicate produits.length true) s1 ∧
      ∀ status cart,
        net.mutation (s.sent + (produits.length - 1)) = .http status (some cart) →
        s1.items = cartOr cart ∧
        (((cartOr cart).map (fun item => item.quantite.natAbs)).sum ≤ 2 ^ 53 →
          s1.obtenirNombreItems =
            .fini ((cartOr cart).map (fun item => item.quantite)).sum) := by
  obtain ⟨s1, h1, _, h3⟩ := ajouterSuite_success net produits s hok
  refine ⟨s1, h1, ?_⟩
  intro status cart hr
  have hitems := h3 hne status cart hr
  refine ⟨hitems, ?_⟩
  intro hmax
  rw [← hitems] at hmax ⊢
  exact obtenirNombreItems_eq_sum s1 hmax

/-- C3 amended, at work: two adds on `panierA`, both answered 200 with `[ligneB]`:
both return `true` and the count is 1, the quantity of `ligneB`. -/
theorem ajouter_mirrors_last_response_witness :
    ∃ s1, ajouterSuite net200 [produitA, produitA] panierA = .returned [true, true] s1 ∧
      s1.items = [ligneB] ∧ s1.obtenirNombreItems = 1 := by
  obtain ⟨s1, h1, h2⟩ := ajouter_mirrors_last_response net200 [produitA, produitA] panierA
    (by simp) (fun k _ => ⟨200, some [ligneB], rfl, rfl⟩)
  obtain ⟨h3, h4⟩ := h2 200 (some [ligneB]) rfl
  exact ⟨s1, h1, h3, by rw [h4 (by decide)]; rfl⟩

/-- C4. Whatever the cart and the product, when the POST of `ajouter` cannot be
made or is answered with a status that is not a success, `ajouter` returns
`false` and the cart (and the badge) are as before; the page is sent to the
login page exactly once when the status is 401 and not at all otherwise. -/
theorem ajouter_failure_keeps_cart (net : Net) (produit : Produit) (s : Panier) :
    (net.mutation s.sent = .networkError →
      ∃ s1, ajouter net produit s = .returned false s1 ∧ s1.items = s.items ∧
        s1.badge = s.badge ∧ s1.redirects = s.redirects) ∧
    (∀ status json, net.mutation s.sent = .http status json →
      Response.okStatus status = false →
      ∃ s1, ajouter net produit s = .returned false s1 ∧ s1.items = s.items ∧
        s1.badge = s.badge ∧
        (status = 401 → s1.redirects = s.redirects + 1) ∧
        (status ≠ 401 → s1.redirects = s.redirects)) := by
  constructor
  · intro hr
    refine ⟨(s.log (.call (.ajouter produit))).log (.fetch (.postCart produit)), ?_, rfl, rfl, ?_⟩
    · simp [ajouter, ajouterTry, hr]
    · simp [redirects, List.count_append]
  · intro status json hr hok
    by_cases h401 : status = 401
    · refine ⟨(((s.log (.call (.ajouter produit))).log (.fetch (.postCart produit))).log
        .alert).log .redirect, ?_, rfl, rfl, ?_, fun h => absurd h401 h⟩
      · subst h401
        simp [ajouter, ajouterTry, hr, hok]
      · intro _; simp [redirects, List.count_append]
    · refine ⟨(s.log (.call (.ajouter produit))).log (.fetch (.postCart produit)), ?_, rfl, rfl,
        fun h => absurd h h401, ?_⟩
      · simp [ajouter, ajouterTry, hr, hok, h401]
      · intro _; simp [redirects, List.count_append]

/-- C4 at work: an add on `panierA` answered 401 returns `false`, keeps the cart
and redirects once. -/
theorem ajouter_failure_keeps_cart_witness :
    ∃ s1, ajouter net401 produitA panierA = .returned false s1 ∧ s1.items = [ligneA] ∧
      s1.redirects = 1 := by
  obtain ⟨s1, h1, h2, _, h4, _⟩ :=
    (ajouter_failure_keeps_cart net401 produitA panierA).2 401 none rfl rfl
  exact ⟨s1, h1, h2, by rw [h4 rfl]; rfl⟩

/-- In a list, `find` stops at the first line whose id matches. -/
theorem find_first (itemId : Int) (item : LineItem) (avant apres : List LineItem)
    (hid : item.id = itemId) (hfirst : ∀ x ∈ avant, x.id ≠ itemId) :
    (avant ++ item :: apres).find? (fun x => x.id == itemId) = some item := by
  induction avant with
  | nil => simp [List.find?_cons, hid]
  | cons a as ih =>
    have ha : (a.id == itemId) = false := by simpa using hfirst a (by simp)
    simp only [List.cons_append, List.find?_cons, ha]
    exact ih (fun x hx => hfirst x (by simp [hx]))

/-- The lookup returns the first line whose id matches. -/
theorem trouver_first (s : Panier) (itemId : Int) (item : LineItem)
    (avant apres : List LineItem) (hitems : s.items = avant ++ item :: apres)
    (hid : item.id = itemId) (hfirst : ∀ x ∈ avant, x.id ≠ itemId) :
    s.trouver itemId = some item := by
  unfold trouver
  rw [hitems]
  exact find_first itemId item avant apres hid hfirst

/-- The lookup returns nothing when no line has the id. -/
theorem trouver_none (s : Panier) (itemId : Int) (h : ∀ x ∈ s.items, x.id ≠ itemId) :
    s.trouver itemId = none := by
  unfold trouver
  rw [List.find?_eq_none]
  intro x hx
  simpa using h x hx

/-- The pair `await this.charger(); return false` always resolves with `false`, in the
state that call of `charger` leaves. -/
theorem chargerPuisFaux_returned (net : Net) (s : Panier) :
    ∃ v s1, charger net s = .returned v s1 ∧ chargerPuisFaux net s = .returned false s1 := by
  obtain ⟨v, s1, h1, _⟩ := charger_returned net s
  exact ⟨v, s1, h1, by simp [chargerPuisFaux, h1]⟩

/-- With the line found and the DELETE answered by a success, `retirer` installs
the cart of the answer. -/
theorem retirer_found_success (net : Net) (itemId : Int) (s : Panier) (item : LineItem)
    (h : s.trouver itemId = some item) (status : Nat) (cart : Option (List LineItem))
    (hr : net.mutation s.sent = .http status (some cart))
    (hok : Response.okStatus status = true) :
    retirer net itemId s = .returned true
      ({ (apresDelete itemId item.product_id s) with items := cartOr cart }.mettreAJourBadge) := by
  simp [retirer, retirerTry, h, hr, hok, apresDelete]

/-- With the line found and the DELETE failing, `retirer` comes down to one
reload after the request. -/
theorem retirer_found_failure (net : Net) (itemId : Int) (s : Panier) (item : LineItem)
    (h : s.trouver itemId = some item) (hr : echec (net.mutation s.sent)) :
    retirer net itemId s = chargerPuisFaux net (apresDelete itemId item.product_id s) := by
  obtain ⟨v, s1, _, h2⟩ := chargerPuisFaux_returned net (apresDelete itemId item.product_id s)
  rcases hr with hr | ⟨status, json, hr, hok⟩ | ⟨status, hr⟩
  · simp [retirer, retirerTry, h, hr, apresDelete]
  · have h2b := h2
    simp only [apresDelete] at h2b
    simp [retirer, retirerTry, h, hr, hok, apresDelete, h2b]
  · by_cases hok : Response.okStatus status = true
    · simp [retirer, retirerTry, h, hr, hok, apresDelete]
    · have h2b := h2
      simp only [apresDelete] at h2b
      simp [retirer, retirerTry, h, hr, hok, apresDelete, h2b]

/-- An answer to a mutation is a success with a readable body, or a failure. -/
theorem success_or_echec (r : Response (Option (List LineItem))) :
    (∃ status cart, r = .http status (some cart) ∧ Response.okStatus status = true) ∨ echec r := by
  rcases r with _ | ⟨status, json⟩
  · exact Or.inr (Or.inl rfl)
  · rcases json with _ | cart
    · exact Or.inr (Or.inr (Or.inr ⟨status, rfl⟩))
    · cases hok : Response.okStatus status
      · exact Or.inr (Or.inr (Or.inl ⟨status, some cart, rfl, hok⟩))
      · exact Or.inl ⟨status, cart, rfl, hok⟩

@[simp]
theorem apresDelete_items (itemId productId : Int) (s : Panier) :
    (apresDelete itemId productId s).items = s.items := rfl

@[simp]
theorem apresDelete_loading (itemId productId : Int) (s : Panier) :
    (apresDelete itemId productId s).loading = s.loading := rfl

@[simp]
theorem apresDelete_requests (itemId productId : Int) (s : Panier) :
    (apresDelete itemId productId s).requests = s.requests ++ [.deleteProduct productId] := by
  simp [apresDelete]

@[simp]
theorem apresDelete_sent (itemId productId : Int) (s : Panier) :
    (apresDelete itemId productId s).sent = s.sent + 1 := by
  simp [apresDelete]

@[simp]
theorem apresDelete_calls (itemId productId : Int) (s : Panier) :
    (apresDelete itemId productId s).calls = s.calls ++ [.retirer itemId] := by
  simp [apresDelete]

/-- C5. When no line of the cart has the id, `retirer` sends no DELETE (the only
request that can leave is the GET of the reload), calls `charger` exactly once
and returns `false`. -/
theorem retirer_absent_reloads (net : Net) (itemId : Int) (s : Panier)
    (h : ∀ x ∈ s.items, x.id ≠ itemId) :
    ∃ v s1, retirer net itemId s = .returned false s1 ∧
      charger net (s.log (.call (.retirer itemId))) = .returned v s1 ∧
      s1.calls = s.calls ++ [.retirer itemId, .charger] ∧
      s1.loads = s.loads + 1 ∧
      (s1.requests = s.requests ∨ s1.requests = s.requests ++ [.getCart]) ∧
      (∀ productId, Request.deleteProduct productId ∈ s1.requests →
        Request.deleteProduct productId ∈ s.requests) := by
  have hnone := trouver_none s itemId h
  obtain ⟨v, s1, h1, h2, _, _, h5, h6⟩ := charger_returned net (s.log (.call (.retirer itemId)))
  have hreq : s1.requests = s.requests ∨ s1.requests = s.requests ++ [.getCart] := by
    cases hl : s.loading
    · exact Or.inr (by simpa using (h6 (by simpa using hl)).2)
    · exact Or.inl (by simpa using (h5 (by simpa using hl)).2.2)
  refine ⟨v, s1, ?_, h1, by simpa using h2, ?_, hreq, ?_⟩
  · simp [retirer, hnone, chargerPuisFaux, h1]
  · simp [loads, h2, List.count_append]
  · intro productId hmem
    rcases hreq with hreq | hreq
    · rwa [hreq] at hmem
    · rw [hreq] at hmem
      simpa using hmem

/-- C5 at work: `retirer(7)` on `panierA`, which has no line 7: one reload, no DELETE. -/
theorem retirer_absent_reloads_witness :
    ∃ s1, retirer net200 7 panierA = .returned false s1 ∧
      s1.calls = [.retirer 7, .charger] ∧ s1.requests = [.getCart] := by
  obtain ⟨v, s1, h1, h2, h3, _, _, _⟩ := retirer_absent_reloads net200 7 panierA (by decide)
  refine ⟨s1, h1, h3, ?_⟩
  have : charger net200 (panierA.log (.call (.retirer 7))) = .returned v s1 := h2
  simp [charger, chargerBegin, chargerResume, chargerTry, panierA, net200, Response.okStatus,
    log] at this
  rw [← this.2]
  rfl

/-- The failing branch of `retirer` in full: `false`, one reload, and the
requests and calls it adds. -/
theorem retirer_found_failure_spec (net : Net) (itemId : Int) (s : Panier) (item : LineItem)
    (h : s.trouver itemId = some item) (hr : echec (net.mutation s.sent)) :
    ∃ v s1, retirer net itemId s = .returned false s1 ∧
      charger net (apresDelete itemId item.product_id s) = .returned v s1 ∧
      s1.calls = s.calls ++ [.retirer itemId, .charger] ∧
      s1.badge = s.badge ∧
      (s.loading = true → s1.items = s.items ∧
        s1.requests = s.requests ++ [.deleteProduct item.product_id]) ∧
      (s.loading = false → s1.loading = false ∧
        s1.requests = s.requests ++ [.deleteProduct item.product_id, .getCart]) := by
  obtain ⟨v, s1, h1, h2, h3, _, h5, h6⟩ :=
    charger_returned net (apresDelete itemId item.product_id s)
  refine ⟨v, s1, ?_, h1, by simpa using h2, by simpa using h3, ?_, ?_⟩
  · rw [retirer_found_failure net itemId s item h hr]
    simp [chargerPuisFaux, h1]
  · intro hl
    obtain ⟨ha, _, hc⟩ := h5 (by simpa using hl)
    exact ⟨by simpa using ha, by simpa using hc⟩
  · intro hl
    obtain ⟨ha, hb⟩ := h6 (by simpa using hl)
    exact ⟨ha, by simpa using hb⟩

/-- C6. When the cart holds a line with the id, `retirer` sends exactly one
DELETE, and its key is the `product_id` of the first such line, not the id; no
other request leaves but the GET of a reload after a failure. When the DELETE
succeeds the cart becomes the one in the answer (`data.cart || []`), `charger`
is not called, and `retirer` returns `true`. -/
theorem retirer_deletes_by_product_id (net : Net) (itemId : Int) (s : Panier)
    (item : LineItem) (avant apres : List LineItem)
    (hitems : s.items = avant ++ item :: apres) (hid : item.id = itemId)
    (hfirst : ∀ x ∈ avant, x.id ≠ itemId) :
    ∃ b s1, retirer net itemId s = .returned b s1 ∧
      (s1.requests = s.requests ++ [.deleteProduct item.product_id] ∨
        s1.requests = s.requests ++ [.deleteProduct item.product_id, .getCart]) ∧
      (∀ status cart, net.mutation s.sent = .http status (some cart) →
        Response.okStatus status = true →
        b = true ∧ s1.items = cartOr cart ∧ s1.calls = s.calls ++ [.retirer itemId] ∧
          s1.loads = s.loads ∧
          s1.requests = s.requests ++ [.deleteProduct item.product_id]) := by
  have h := trouver_first s itemId item avant apres hitems hid hfirst
  rcases success_or_echec (net.mutation s.sent) with ⟨status, cart, hr, hok⟩ | hfail
  · refine ⟨true, _, retirer_found_success net itemId s item h status cart hr hok, ?_, ?_⟩
    · left
      simp [mettreAJourBadge, requests, apresDelete, requestOf, List.filterMap_append]
    · intro status2 cart2 hr2 _
      rw [hr] at hr2
      cases hr2
      refine ⟨rfl, rfl, ?_, ?_, ?_⟩
      · simp [mettreAJourBadge, calls, apresDelete, callOf, List.filterMap_append]
      · simp [loads, mettreAJourBadge, calls, apresDelete, callOf, List.filterMap_append,
          List.count_append]
      · simp [mettreAJourBadge, requests, apresDelete, requestOf, List.filterMap_append]
  · obtain ⟨v, s1, h1, _, _, _, h5, h6⟩ := retirer_found_failure_spec net itemId s item h hfail
    refine ⟨false, s1, h1, ?_, ?_⟩
    · cases hl : s.loading
      · exact Or.inr (h6 hl).2
      · exact Or.inl (h5 hl).2
    · intro status cart hr hok
      exfalso
      rcases hfail with hf | ⟨st, js, hf, hno⟩ | ⟨st, hf⟩
      · rw [hr] at hf; cases hf
      · rw [hr] at hf; cases hf; rw [hok] at hno; cases hno
      · rw [hr] at hf; cases hf

/-- C6 at work: `retirer(1)` on `panierDouble` deletes product 10, the product of
the first line with id 1; the answer is a success and its cart is installed. -/
theorem retirer_deletes_by_product_id_witness :
    ∃ s1, retirer net200 1 panierDouble = .returned true s1 ∧ s1.items = [ligneB] ∧
      s1.requests = [.deleteProduct 10] ∧ s1.calls = [.retirer 1] := by
  obtain ⟨b, s1, h1, _, h3⟩ := retirer_deletes_by_product_id net200 1 panierDouble ligneA
    [ligneB] [{ ligneA with product_id := 99 }] rfl rfl (by decide)
  obtain ⟨hb, hi, hc, _, hq⟩ := h3 200 (some [ligneB]) rfl rfl
  subst hb
  exact ⟨s1, h1, hi, hq, hc⟩

/-- C7, as stated, fails: `panierEnCours` holds line 1 and has a load in flight;
the DELETE of `retirer(1)` is answered 500. The call of `charger` stops at its
guard: no GET leaves, and the cart stays `[ligneA]`, which is neither the list
`[ligneB]` the server would send nor the empty cart. -/
theorem retirer_failure_in_flight :
    retirer netRefus 1 panierEnCours = .returned false
      { items := [ligneA], loading := true, badge := some 2,
        trace := [.call (.retirer 1), .fetch (.deleteProduct 10), .call .charger] } ∧
    ¬ ∃ b s1, retirer netRefus 1 panierEnCours = .returned b s1 ∧
      (s1.items = [ligneB] ∨ s1.items = []) := by
  have heval : retirer netRefus 1 panierEnCours = .returned false
      { items := [ligneA], loading := true, badge := some 2,
        trace := [.call (.retirer 1), .fetch (.deleteProduct 10), .call .charger] } := by
    rfl
  refine ⟨heval, ?_⟩
  rintro ⟨b, s1, h1, h2⟩
  rw [heval] at h1
  cases h1
  rcases h2 with h2 | h2
  · exact absurd h2 (by decide)
  · exact absurd h2 (by decide)

/-- C7, amended. When the cart holds the line and the DELETE of `retirer` cannot be
made or is answered with a status that is not a success, `retirer` calls
`charger` exactly once and returns `false`; the state it ends in is the one that
call of `charger` leaves, started from the cart as it was, never a list patched
locally. With no load in flight that is the array the server sends to the
reload, or the empty cart when the reload fails; with a load already in flight
the reload is the no-op of the guard and the cart is as it was. -/
theorem retirer_failure_resynchronises (net : Net) (itemId : Int) (s : Panier)
    (item : LineItem) (avant apres : List LineItem)
    (hitems : s.items = avant ++ item :: apres) (hid : item.id = itemId)
    (hfirst : ∀ x ∈ avant, x.id ≠ itemId)
    (hfail : net.mutation s.sent = .networkError ∨
      ∃ status json, net.mutation s.sent = .http status json ∧
        Response.okStatus status = false) :
    ∃ v s1, retirer net itemId s = .returned false s1 ∧
      charger net (apresDelete itemId item.product_id s) = .returned v s1 ∧
      (apresDelete itemId item.product_id s).items = s.items ∧
      s1.calls = s.calls ++ [.retirer itemId, .charger] ∧
      s1.loads = s.loads + 1 ∧
      (s.loading = false →
        (∀ status xs, net.cart (s.sent + 1) = .http status (some xs) →
          Response.okStatus status = true → s1.items = xs) ∧
        (∀ status json, net.cart (s.sent + 1) = .http status json →
          Response.okStatus status = false → s1.items = []) ∧
        (net.cart (s.sent + 1) = .networkError → s1.items = [])) ∧
      (s.loading = true → s1.items = s.items) := by
  have h := trouver_first s itemId item avant apres hitems hid hfirst
  have hr : echec (net.mutation s.sent) := by
    rcases hfail with hf | ⟨status, json, hf, hno⟩
    · exact Or.inl hf
    · exact Or.inr (Or.inl ⟨status, json, hf, hno⟩)
  obtain ⟨v, s1, h1, h2, h3, _, h5, _⟩ := retirer_found_failure_spec net itemId s item h hr
  refine ⟨v, s1, h1, h2, rfl, h3, ?_, ?_, fun hl => (h5 hl).1⟩
  · simp [loads, h3, List.count_append]
  · intro hl
    obtain ⟨v2, s2, g1, _, _, g4, g5, g6⟩ :=
      charger_idle net (apresDelete itemId item.product_id s) (by simpa using hl)
    rw [h2] at g1
    cases g1
    rw [apresDelete_sent] at g4 g5 g6
    exact ⟨g4, g5, g6⟩

/-- C7 amended, at work: on `panierA` the DELETE is answered 500 and so is the reload:
`retirer(1)` returns `false`, after one reload, with the cart empty. -/
theorem retirer_failure_resynchronises_witness :
    ∃ s1, retirer net500 1 panierA = .returned false s1 ∧
      s1.calls = [.retirer 1, .charger] ∧ s1.items = [] := by
  obtain ⟨v, s1, h1, _, _, h4, _, h6, _⟩ := retirer_failure_resynchronises net500 1 panierA
    ligneA [] [] rfl rfl (by decide) (Or.inr ⟨500, none, rfl, rfl⟩)
  exact ⟨s1, h1, h4, (h6 rfl).2.1 500 none rfl rfl⟩

@[simp]
theorem apresPut_requests (itemId quantite : Int) (item : LineItem) (s : Panier) :
    (apresPut itemId quantite item s).requests
      = s.requests ++ [.putItem itemId { item with quantite := quantite }] := by
  simp [apresPut]

@[simp]
theorem apresPut_calls (itemId quantite : Int) (item : LineItem) (s : Panier) :
    (apresPut itemId quantite item s).calls
      = s.calls ++ [.mettreAJourQuantite itemId quantite] := by
  simp [apresPut]

/-- Writing the badge touches neither the cart nor the log. -/
@[simp]
theorem mettreAJourBadge_items (s : Panier) : s.mettreAJourBadge.items = s.items := rfl

@[simp]
theorem mettreAJourBadge_requests (s : Panier) :
    s.mettreAJourBadge.requests = s.requests := rfl

@[simp]
theorem mettreAJourBadge_calls (s : Panier) : s.mettreAJourBadge.calls = s.calls := rfl

/-- No line has the id: `mettreAJourQuantite` returns `false` at once. -/
theorem mettreAJourQuantite_absent (net : Net) (itemId quantite : Int) (s : Panier)
    (h : s.trouver itemId = none) :
    mettreAJourQuantite net itemId quantite s
      = .returned false (s.log (.call (.mettreAJourQuantite itemId quantite))) := by
  simp [mettreAJourQuantite, mettreAJourQuantiteTry, h]

/-- The line is found and the PUT succeeds: the cart of the answer is installed. -/
theorem mettreAJourQuantite_success (net : Net) (itemId quantite : Int) (s : Panier)
    (item : LineItem) (h : s.trouver itemId = some item) (status : Nat)
    (cart : Option (List LineItem)) (hr : net.mutation s.sent = .http status (some cart))
    (hok : Response.okStatus status = true) :
    mettreAJourQuantite net itemId quantite s = .returned true
      ({ (apresPut itemId quantite item s) with items := cartOr cart }.mettreAJourBadge) := by
  simp [mettreAJourQuantite, mettreAJourQuantiteTry, h, hr, hok, apresPut]

/-- The line is found and the PUT fails: `false`, and nothing but the log moves. -/
theorem mettreAJourQuantite_failure (net : Net) (itemId quantite : Int) (s : Panier)
    (item : LineItem) (h : s.trouver itemId = some item) (hr : echec (net.mutation s.sent)) :
    mettreAJourQuantite net itemId quantite s
      = .returned false (apresPut itemId quantite item s) := by
  rcases hr with hr | ⟨status, json, hr, hok⟩ | ⟨status, hr⟩
  · simp [mettreAJourQuantite, mettreAJourQuantiteTry, h, hr, apresPut]
  · simp [mettreAJourQuantite, mettreAJourQuantiteTry, h, hr, hok, apresPut]
  · by_cases hok : Response.okStatus status = true
    · simp [mettreAJourQuantite, mettreAJourQuantiteTry, h, hr, hok, apresPut]
    · simp [mettreAJourQuantite, mettreAJourQuantiteTry, h, hr, hok, apresPut]

/-- A failure is not a success with a readable body. -/
theorem echec_not_success (r : Response (Option (List LineItem))) (hr : echec r)
    (status : Nat) (cart : Option (List LineItem)) (h : r = .http status (some cart))
    (hok : Response.okStatus status = true) : False := by
  rcases hr with hf | ⟨st, js, hf, hno⟩ | ⟨st, hf⟩
  · rw [h] at hf; cases hf
  · rw [h] at hf; cases hf; simp [hok] at hno
  · rw [h] at hf; cases hf

/-- C8. Every call of `mettreAJourQuantite` resolves, and never calls `charger`.
A call that returns `false` leaves the cart (and the badge and the flag) as they
were. It returns `false` without any request when no line of the cart has the
id, and returns `false` when the PUT cannot be made or is answered with a status
that is not a success. -/
theorem mettreAJourQuantite_failure_keeps_cart (net : Net) (itemId quantite : Int)
    (s : Panier) :
    ∃ b s1, mettreAJourQuantite net itemId quantite s = .returned b s1 ∧
      s1.calls = s.calls ++ [.mettreAJourQuantite itemId quantite] ∧
      s1.loads = s.loads ∧
      Request.getCart ∉ s1.requests.drop s.requests.length ∧
      (b = false → s1.items = s.items ∧ s1.badge = s.badge ∧ s1.loading = s.loading) ∧
      ((∀ x ∈ s.items, x.id ≠ itemId) → b = false ∧ s1.requests = s.requests) ∧
      (net.mutation s.sent = .networkError → b = false) ∧
      (∀ status json, net.mutation s.sent = .http status json →
        Response.okStatus status = false → b = false) := by
  cases h : s.trouver itemId with
  | none =>
    refine ⟨false, _, mettreAJourQuantite_absent net itemId quantite s h, by simp, ?_, by simp,
      fun _ => ⟨rfl, rfl, rfl⟩, fun _ => ⟨rfl, by simp⟩, fun _ => rfl, fun _ _ _ _ => rfl⟩
    simp [loads, List.count_append]
  | some item =>
    have hmem : ∃ x ∈ s.items, x.id = itemId := by
      have h1 := List.mem_of_find?_eq_some h
      have h2 := List.find?_some h
      exact ⟨item, h1, by simpa using h2⟩
    rcases success_or_echec (net.mutation s.sent) with ⟨status, cart, hr, hok⟩ | hfail
    · refine ⟨true, _, mettreAJourQuantite_success net itemId quantite s item h status cart hr hok,
        ?_, ?_, ?_, ?_, ?_, ?_, ?_⟩
      · simp [calls, mettreAJourBadge, apresPut, callOf, List.filterMap_append]
      · simp [loads, calls, mettreAJourBadge, apresPut, callOf, List.filterMap_append,
          List.count_append]
      · simp [requests, mettreAJourBadge, apresPut, requestOf, List.filterMap_append]
      · intro hb; cases hb
      · intro hall
        obtain ⟨x, hx, hxid⟩ := hmem
        exact absurd hxid (hall x hx)
      · intro hf; rw [hr] at hf; cases hf
      · intro st js hf hno
        rw [hr] at hf; cases hf; simp [hok] at hno
    · refine ⟨false, _, mettreAJourQuantite_failure net itemId quantite s item h hfail,
        by simp, ?_, by simp, fun _ => ⟨rfl, rfl, rfl⟩, ?_, fun _ => rfl, fun _ _ _ _ => rfl⟩
      · simp [loads, List.count_append]
      · intro hall
        obtain ⟨x, hx, hxid⟩ := hmem
        exact absurd hxid (hall x hx)

/-- C8 at work: on `panierA`, `mettreAJourQuantite(7, 3)` finds no line 7 and
sends nothing; `mettreAJourQuantite(1, 3)` answered 500 keeps the cart. -/
theorem mettreAJourQuantite_failure_keeps_cart_witness :
    (∃ s1, mettreAJourQuantite net500 7 3 panierA = .returned false s1 ∧
      s1.items = [ligneA] ∧ s1.requests = []) ∧
    (∃ s1, mettreAJourQuantite net500 1 3 panierA = .returned false s1 ∧
      s1.items = [ligneA] ∧ s1.loads = 0) := by
  constructor
  · obtain ⟨b, s1, h1, _, _, _, h5, h6, _⟩ := mettreAJourQuantite_failure_keeps_cart net500 7 3 panierA
    obtain ⟨hb, hq⟩ := h6 (by decide)
    subst hb
    exact ⟨s1, h1, (h5 rfl).1, hq⟩
  · obtain ⟨b, s1, h1, _, h3, _, h5, _, _, h8⟩ :=
      mettreAJourQuantite_failure_keeps_cart net500 1 3 panierA
    have hb := h8 500 none rfl rfl
    subst hb
    exact ⟨s1, h1, (h5 rfl).1, h3⟩

/-- What `mettreAJourQuantite` does once the line is found: one PUT with the
merged line, and a result that follows the answer alone. -/
theorem mettreAJourQuantite_found (net : Net) (itemId quantite : Int) (s : Panier)
    (item : LineItem) (h : s.trouver itemId = some item) :
    ∃ b s1, mettreAJourQuantite net itemId quantite s = .returned b s1 ∧
      s1.requests = s.requests ++ [.putItem itemId { item with quantite := quantite }] ∧
      (b = true ↔ ∃ status cart, net.mutation s.sent = .http status (some cart) ∧
        Response.okStatus status = true) ∧
      (∀ status cart, net.mutation s.sent = .http status (some cart) →
        Response.okStatus status = true → b = true ∧ s1.items = cartOr cart) := by
  rcases success_or_echec (net.mutation s.sent) with ⟨status, cart, hr, hok⟩ | hfail
  · refine ⟨true, _, mettreAJourQuantite_success net itemId quantite s item h status cart hr hok,
      ?_, ⟨fun _ => ⟨status, cart, hr, hok⟩, fun _ => rfl⟩, ?_⟩
    · simp [requests, mettreAJourBadge, apresPut, requestOf, List.filterMap_append]
    · intro st c hr2 _
      rw [hr] at hr2
      cases hr2
      exact ⟨rfl, rfl⟩
  · have hno : ¬ ∃ status cart, net.mutation s.sent = .http status (some cart) ∧
        Response.okStatus status = true := by
      rintro ⟨st, c, hr, hok⟩
      exact echec_not_success _ hfail st c hr hok
    refine ⟨false, _, mettreAJourQuantite_failure net itemId quantite s item h hfail,
      by simp, ?_, ?_⟩
    · constructor
      · intro hb; cases hb
      · intro hex; exact absurd hex hno
    · intro st c hr hok
      exact absurd ⟨st, c, hr, hok⟩ hno

/-- C9. When the cart holds a line with the id, `mettreAJourQuantite` sends
exactly one request, a PUT to `/api/cart/{itemId}`, whose body is the first such
line with `quantite` set to the quantity given and every other field as it was;
when the answer is a success the cart becomes the one in the answer
(`data.cart || []`) and the call returns `true`. -/
theorem mettreAJourQuantite_puts_merged_item (net : Net) (itemId quantite : Int)
    (s : Panier) (item : LineItem) (avant apres : List LineItem)
    (hitems : s.items = avant ++ item :: apres) (hid : item.id = itemId)
    (hfirst : ∀ x ∈ avant, x.id ≠ itemId) :
    ∃ b s1 body, mettreAJourQuantite net itemId quantite s = .returned b s1 ∧
      s1.requests = s.requests ++ [.putItem itemId body] ∧
      body.quantite = quantite ∧ body.id = item.id ∧ body.product_id = item.product_id ∧
      body.nom = item.nom ∧ body.prix = item.prix ∧ body.image = item.image ∧
      body.contenant = item.contenant ∧ body.type = item.type ∧
      (∀ status cart, net.mutation s.sent = .http status (some cart) →
        Response.okStatus status = true → b = true ∧ s1.items = cartOr cart) := by
  have h := trouver_first s itemId item avant apres hitems hid hfirst
  obtain ⟨b, s1, h1, h2, _, h4⟩ := mettreAJourQuantite_found net itemId quantite s item h
  exact ⟨b, s1, { item with quantite := quantite }, h1, h2, rfl, rfl, rfl, rfl, rfl, rfl, rfl,
    rfl, h4⟩

/-- C9 at work: `mettreAJourQuantite(1, 3)` on `panierA`, answered 200 with
`[ligneB]`: the PUT carries `ligneA` with quantity 3, and the cart is `[ligneB]`. -/
theorem mettreAJourQuantite_puts_merged_item_witness :
    ∃ s1, mettreAJourQuantite net200 1 3 panierA = .returned true s1 ∧
      s1.requests = [.putItem 1 { ligneA with quantite := 3 }] ∧ s1.items = [ligneB] := by
  obtain ⟨b, s1, body, h1, h2, h3, h4, h5, h6, h7, h8, h9, h10, h11⟩ :=
    mettreAJourQuantite_puts_merged_item net200 1 3 panierA ligneA [] [] rfl rfl (by decide)
  obtain ⟨hb, hi⟩ := h11 200 (some [ligneB]) rfl rfl
  subst hb
  have hbody : body = { ligneA with quantite := 3 } := by
    cases body
    simp only [LineItem.mk.injEq]
    exact ⟨h4, h5, h6, h7, h8, h9, h10, h3⟩
  subst hbody
  exact ⟨s1, h1, h2, hi⟩

/-- C10, as stated, fails: on `panierA` the quantity 0 for line 1 is not turned
down. A PUT carrying quantity 0 leaves, and with the server answering 200 the
call returns `true`; so it is not the case that the call fails with no request. -/
theorem mettreAJourQuantite_zero_is_sent :
    mettreAJourQuantite net200 1 0 panierA = .returned true
      { items := [ligneB], loading := false, badge := some 1,
        trace := [.call (.mettreAJourQuantite 1 0),
          .fetch (.putItem 1 { ligneA with quantite := 0 })] } ∧
    ¬ ∃ s1, mettreAJourQuantite net200 1 0 panierA = .returned false s1 ∧
      s1.requests = panierA.requests := by
  have heval : mettreAJourQuantite net200 1 0 panierA = .returned true
      { items := [ligneB], loading := false, badge := some 1,
        trace := [.call (.mettreAJourQuantite 1 0),
          .fetch (.putItem 1 { ligneA with quantite := 0 })] } := by
    rfl
  refine ⟨heval, ?_⟩
  rintro ⟨s1, h1, _⟩
  rw [heval] at h1
  cases h1

/-- C10, amended. The core puts no limit on the quantity, not even positivity:
for a line present in the cart, every integer quantity (positive however
large, zero, or negative) leaves in one PUT carrying that quantity, and the call
returns `true` exactly when the server answers with a success and a body that
can be read; no quantity is turned down locally. -/
theorem mettreAJourQuantite_any_quantity_is_sent (net : Net) (itemId quantite : Int)
    (s : Panier) (item : LineItem) (avant apres : List LineItem)
    (hitems : s.items = avant ++ item :: apres) (hid : item.id = itemId)
    (hfirst : ∀ x ∈ avant, x.id ≠ itemId) :
    ∃ b s1, mettreAJourQuantite net itemId quantite s = .returned b s1 ∧
      s1.requests = s.requests ++ [.putItem itemId { item with quantite := quantite }] ∧
      (b = true ↔ ∃ status cart, net.mutation s.sent = .http status (some cart) ∧
        Response.okStatus status = true) := by
  have h := trouver_first s itemId item avant apres hitems hid hfirst
  obtain ⟨b, s1, h1, h2, h3, _⟩ := mettreAJourQuantite_found net itemId quantite s item h
  exact ⟨b, s1, h1, h2, h3⟩

/-- C10 amended, at work: the quantities 1000 and -3 for line 1 of `panierA` both
leave in a PUT, and both calls return `true` when the server answers 200. -/
theorem mettreAJourQuantite_any_quantity_is_sent_witness :
    (∃ s1, mettreAJourQuantite net200 1 1000 panierA = .returned true s1 ∧
      s1.requests = [.putItem 1 { ligneA with quantite := 1000 }]) ∧
    (∃ s1, mettreAJourQuantite net200 1 (-3) panierA = .returned true s1 ∧
      s1.requests = [.putItem 1 { ligneA with quantite := -3 }]) := by
  constructor
  · obtain ⟨b, s1, h1, h2, h3⟩ :=
      mettreAJourQuantite_any_quantity_is_sent net200 1 1000 panierA ligneA [] [] rfl rfl (by decide)
    have hb : b = true := h3.mpr ⟨200, some [ligneB], rfl, rfl⟩
    subst hb
    exact ⟨s1, h1, h2⟩
  · obtain ⟨b, s1, h1, h2, h3⟩ :=
      mettreAJourQuantite_any_quantity_is_sent net200 1 (-3) panierA ligneA [] [] rfl rfl (by decide)
    have hb : b = true := h3.mpr ⟨200, some [ligneB], rfl, rfl⟩
    subst hb
    exact ⟨s1, h1, h2⟩

/-! ## No method rejects, and an idle cart stays idle -/

/-- The promise of `ajouter` never rejects, and the flag is not touched. -/
theorem ajouter_returned (net : Net) (produit : Produit) (s : Panier) :
    ∃ b s1, ajouter net produit s = .returned b s1 ∧ s1.loading = s.loading := by
  unfold ajouter ajouterTry
  rcases net.mutation (s.log (.call (.ajouter produit))).sent with _ | ⟨status, json⟩
  · exact ⟨false, _, rfl, rfl⟩
  · by_cases hok : Response.okStatus status = true
    · rcases json with _ | cart
      · simp only [hok, if_true]; exact ⟨false, _, rfl, rfl⟩
      · simp only [hok, if_true]; exact ⟨true, _, rfl, rfl⟩
    · by_cases h401 : status = 401
      · simp only [hok, h401, if_true]; exact ⟨false, _, rfl, rfl⟩
      · simp only [hok, h401]; exact ⟨false, _, rfl, rfl⟩

/-- The promise of `retirer` never rejects, and an idle cart is idle afterwards. -/
theorem retirer_returned (net : Net) (itemId : Int) (s : Panier) :
    ∃ b s1, retirer net itemId s = .returned b s1 ∧ (s.loading = false → s1.loading = false) := by
  cases h : s.trouver itemId with
  | none =>
    obtain ⟨v, s1, h1, _, _, _, _, h6⟩ := charger_returned net (s.log (.call (.retirer itemId)))
    refine ⟨false, s1, ?_, fun hl => (h6 (by simpa using hl)).1⟩
    simp [retirer, h, chargerPuisFaux, h1]
  | some item =>
    rcases success_or_echec (net.mutation s.sent) with ⟨status, cart, hr, hok⟩ | hfail
    · exact ⟨true, _, retirer_found_success net itemId s item h status cart hr hok, fun hl => hl⟩
    · obtain ⟨v, s1, h1, _, _, _, _, h6⟩ := retirer_found_failure_spec net itemId s item h hfail
      exact ⟨false, s1, h1, fun hl => (h6 hl).1⟩

/-- The promise of `mettreAJourQuantite` never rejects, and the flag is not touched. -/
theorem mettreAJourQuantite_returned (net : Net) (itemId quantite : Int) (s : Panier) :
    ∃ b s1, mettreAJourQuantite net itemId quantite s = .returned b s1 ∧
      s1.loading = s.loading := by
  cases h : s.trouver itemId with
  | none => exact ⟨false, _, mettreAJourQuantite_absent net itemId quantite s h, rfl⟩
  | some item =>
    rcases success_or_echec (net.mutation s.sent) with ⟨status, cart, hr, hok⟩ | hfail
    · exact ⟨true, _, mettreAJourQuantite_success net itemId quantite s item h status cart hr hok,
        rfl⟩
    · exact ⟨false, _, mettreAJourQuantite_failure net itemId quantite s item h hfail, rfl⟩

/-! ## The derived figures -/

/-- The reduce of `obtenirTotal`, started from a total `t`: when the absolute
values of the total and of the products sum to at most 2^53, and each price and
quantity is at most 2^53 in absolute value, nothing rounds. -/
theorem foldl_prix (xs : List LineItem) (t : Int)
    (hread : ∀ item ∈ xs, item.prix.natAbs ≤ 2 ^ 53 ∧ item.quantite.natAbs ≤ 2 ^ 53)
    (hmax : t.natAbs + (xs.map (fun item => (item.prix * item.quantite).natAbs)).sum
      ≤ 2 ^ 53) :
    xs.foldl
        (fun (total : Nombre) (item : LineItem) =>
          total.plus ((arrondi item.prix).fois (arrondi item.quantite)))
        (.fini t)
      = .fini (t + (xs.map (fun item => item.prix * item.quantite)).sum) := by
  induction xs generalizing t with
  | nil => simp
  | cons x xs ih =>
    simp only [List.map_cons, List.sum_cons] at hmax
    have hp : arrondi x.prix = .fini x.prix := arrondi_exact _ (hread x (by simp)).1
    have hq : arrondi x.quantite = .fini x.quantite := arrondi_exact _ (hread x (by simp)).2
    have hprod : (Nombre.fini x.prix).fois (.fini x.quantite) = .fini (x.prix * x.quantite) := by
      simp only [Nombre.fois]
      exact arrondi_exact _ (by omega)
    have hstep : (Nombre.fini t).plus (.fini (x.prix * x.quantite))
        = .fini (t + x.prix * x.quantite) := by
      simp only [Nombre.plus]
      exact arrondi_exact _ (by omega)
    simp only [List.foldl_cons, hp, hq, hprod, hstep, List.map_cons, List.sum_cons]
    rw [ih (t + x.prix * x.quantite) (fun item hitem => hread item (by simp [hitem]))
      (by omega)]
    congr 1
    omega

/-- The total is the sum of price times quantity when every price and quantity
is at most 2^53 in absolute value and the absolute values of the products sum
to at most 2^53. -/
theorem obtenirTotal_eq_sum (s : Panier)
    (hread : ∀ item ∈ s.items, item.prix.natAbs ≤ 2 ^ 53 ∧ item.quantite.natAbs ≤ 2 ^ 53)
    (hmax : (s.items.map (fun item => (item.prix * item.quantite).natAbs)).sum ≤ 2 ^ 53) :
    s.obtenirTotal = .fini (s.items.map (fun item => item.prix * item.quantite)).sum := by
  unfold obtenirTotal
  rw [foldl_prix s.items 0 hread (by simpa using hmax)]
  congr 1
  omega

/-- C14, as stated, fails: for the cart `[ligneGrande, ligneDeux]`, whose
quantities are 2^53 - 1 and 2, `obtenirNombreItems()` is 2^53 and not the sum
2^53 + 1 of the quantities: the second addition rounds. -/
theorem obtenirNombreItems_rounds :
    panierGrand.items.map (fun item => item.quantite) = [9007199254740991, 2] ∧
    panierGrand.obtenirNombreItems = .fini 9007199254740992 ∧
    panierGrand.obtenirNombreItems ≠
      .fini (panierGrand.items.map (fun item => item.quantite)).sum := by
  decide

/-- C14, amended. For every cart whose quantities are integers with absolute
values that sum to at most 2^53 (so for quantities that are not negative and
sum to at most 2^53), `obtenirNombreItems()` is the sum of the `quantite` fields
of its lines; it is 0 for the empty cart. The method has no assignment: it is a
function of the state to a number, so the cart after it is the cart before. -/
theorem obtenirNombreItems_sums_quantities (s : Panier)
    (hmax : (s.items.map (fun item => item.quantite.natAbs)).sum ≤ 2 ^ 53) :
    s.obtenirNombreItems = .fini (s.items.map (fun item => item.quantite)).sum ∧
    ({ s with items := [] } : Panier).obtenirNombreItems = .fini 0 :=
  ⟨obtenirNombreItems_eq_sum s hmax, rfl⟩

/-- C14 amended, at work: the three lines of `panierTrois` hold 2, 1 and 4 units;
the count is 7. -/
theorem obtenirNombreItems_sums_quantities_witness :
    panierTrois.obtenirNombreItems = .fini 7 := by
  have h := (obtenirNombreItems_sums_quantities panierTrois (by decide)).1
  rw [h]
  rfl

/-- C15, as stated, fails: for the cart of `lignePrix` alone, three units at the
integer price 2^53 - 1, `obtenirTotal()` is 27021597764222972 and not the
product 27021597764222973: the multiplication rounds. -/
theorem obtenirTotal_rounds :
    panierPrix.items.map (fun item => (item.prix, item.quantite)) = [(9007199254740991, 3)] ∧
    panierPrix.obtenirTotal = .fini 27021597764222972 ∧
    panierPrix.obtenirTotal ≠
      .fini (panierPrix.items.map (fun item => item.prix * item.quantite)).sum := by
  decide

/-- C15, amended. For every cart whose prices and quantities are integers of at
most 2^53 in absolute value, with the absolute values of the products
`prix * quantite` summing to at most 2^53 (so for prices and quantities that
are not negative when the total is at most 2^53), `obtenirTotal()` is the sum
over its lines of `prix * quantite`; it is 0 for the empty cart; it is a function
of the state to a number. For the cart of one line with id 1, product 10,
quantity 2 and price 1500 it is 3000, and after `mettreAJourQuantite(1, 3)`
answered with a success whose cart holds that line at quantity 3 it is 4500. -/
theorem obtenirTotal_sums_prices (s : Panier) :
    ((∀ item ∈ s.items, item.prix.natAbs ≤ 2 ^ 53 ∧ item.quantite.natAbs ≤ 2 ^ 53) →
      (s.items.map (fun item => (item.prix * item.quantite).natAbs)).sum ≤ 2 ^ 53 →
      s.obtenirTotal = .fini (s.items.map (fun item => item.prix * item.quantite)).sum) ∧
    ({ s with items := [] } : Panier).obtenirTotal = .fini 0 ∧
    (∀ item : LineItem, item.id = 1 → item.product_id = 10 → item.quantite = 2 →
      item.prix = 1500 → s.items = [item] →
      s.obtenirTotal = .fini 3000 ∧
      ∀ (net : Net) (status : Nat),
        net.mutation s.sent = .http status (some (some [{ item with quantite := 3 }])) →
        Response.okStatus status = true →
        ∃ s1, mettreAJourQuantite net 1 3 s = .returned true s1 ∧
          s1.obtenirTotal = .fini 4500) := by
  refine ⟨obtenirTotal_eq_sum s, rfl, ?_⟩
  intro item hid _ hq hp hitems
  constructor
  · rw [obtenirTotal_eq_sum s (by simp [hitems, hq, hp]) (by simp [hitems, hq, hp]), hitems]
    simp [hq, hp]
  · intro net status hr hok
    have h : s.trouver 1 = some item := by
      simp [trouver, hitems, hid]
    refine ⟨_, mettreAJourQuantite_success net 1 3 s item h status _ hr hok, ?_⟩
    rw [obtenirTotal_eq_sum _ (by simp [cartOr, hp]) (by simp [cartOr, hp])]
    simp [cartOr, hp]

/-- C15 amended, at work: `panierA` holds the line of the example; its total is
3000, and 4500 after `mettreAJourQuantite(1, 3)` answered 200 with quantity 3. -/
theorem obtenirTotal_sums_prices_witness :
    panierA.obtenirTotal = .fini 3000 ∧
      ∃ s1, mettreAJourQuantite netEcho 1 3 panierA = .returned true s1 ∧
        s1.obtenirTotal = .fini 4500 := by
  obtain ⟨h1, h2⟩ := (obtenirTotal_sums_prices panierA).2.2 ligneA rfl rfl rfl rfl rfl
  exact ⟨h1, h2 netEcho 200 rfl rfl⟩

end Panier

/-! ## The quantity control and the shipping fee -/

/-- When the number written in the input and the delta are held exactly by
doubles, `changeQuantity` decides on the exact sum. -/
theorem changeQuantity_exact (v d : Int) (hv : v.natAbs ≤ 2 ^ 53) (hd : d.natAbs ≤ 2 ^ 53) :
    changeQuantity d (some v) = if 1 ≤ v + d ∧ v + d ≤ 10 then some (v + d) else some v := by
  have hread : arrondi v = .fini v := Panier.arrondi_exact v hv
  have hdelta : arrondi d = .fini d := Panier.arrondi_exact d hd
  simp only [changeQuantity, hread, hdelta, Nombre.plus]
  by_cases hsum : (v + d).natAbs ≤ 2 ^ 53
  · rw [Panier.arrondi_exact (v + d) hsum]
  · have hout : ¬ (1 ≤ v + d ∧ v + d ≤ 10) := by omega
    rw [if_neg hout]
    cases hr : arrondi (v + d) with
    | fini y =>
      have hy := Panier.arrondi_grand (v + d) (by omega) y hr
      have hno : ¬ (1 ≤ y ∧ y ≤ 10) := by omega
      simp only [if_neg hno]
    | infini negatif => rfl
    | nan => rfl

/-- Whatever the delta, `changeQuantity` leaves in the input the number that
was there or a number from 1 to 10. -/
theorem changeQuantity_range (v d : Int) :
    changeQuantity d (some v) = some v ∨
      ∃ w, changeQuantity d (some v) = some w ∧ 1 ≤ w ∧ w ≤ 10 := by
  simp only [changeQuantity]
  cases (arrondi v).plus (arrondi d) with
  | fini y =>
    by_cases hin : 1 ≤ y ∧ y ≤ 10
    · right
      exact ⟨y, by simp only [if_pos hin], hin.1, hin.2⟩
    · left
      simp only [if_neg hin]
  | infini negatif => exact Or.inl rfl
  | nan => exact Or.inl rfl

/-- C16, as stated, fails: with 9007199254740993 written in the input and the
delta -9007199254740990 the sum is 3, between 1 and 10, but `changeQuantity`
writes 2: `parseInt` reads the input as the double 9007199254740992. -/
theorem changeQuantity_reads_a_double :
    (9007199254740993 : Int) + (-9007199254740990) = 3 ∧
    changeQuantity (-9007199254740990) (some 9007199254740993) = some 2 ∧
    changeQuantity (-9007199254740990) (some 9007199254740993) ≠
      some (9007199254740993 + (-9007199254740990)) := by
  decide

/-- C16, amended. For every integer `v` written in the quantity input and every
integer delta `d` that doubles hold exactly (every `v` and `d` from -2^53 to
2^53), `changeQuantity(d)` sets the input to `v + d` when `1 ≤ v + d ≤ 10` and
leaves it at `v` otherwise; and a value in 1..10 stays in 1..10 under any run of
`changeQuantity` calls, whatever the deltas. -/
theorem changeQuantity_keeps_range (v d : Int) :
    (v.natAbs ≤ 2 ^ 53 → d.natAbs ≤ 2 ^ 53 →
      (1 ≤ v + d ∧ v + d ≤ 10 → changeQuantity d (some v) = some (v + d)) ∧
      (¬ (1 ≤ v + d ∧ v + d ≤ 10) → changeQuantity d (some v) = some v)) ∧
    (∀ deltas : List Int, 1 ≤ v → v ≤ 10 →
      ∃ w, changeQuantitySuite deltas (some v) = some w ∧ 1 ≤ w ∧ w ≤ 10) := by
  refine ⟨?_, ?_⟩
  · intro hv hd
    have h := changeQuantity_exact v d hv hd
    exact ⟨fun hin => by rw [h, if_pos hin], fun hout => by rw [h, if_neg hout]⟩
  · intro deltas
    induction deltas generalizing v with
    | nil => intro h1 h2; exact ⟨v, rfl, h1, h2⟩
    | cons e es ih =>
      intro h1 h2
      rcases changeQuantity_range v e with hsame | ⟨u, hu, hu1, hu2⟩
      · obtain ⟨w, hw, hw1, hw2⟩ := ih v h1 h2
        refine ⟨w, ?_, hw1, hw2⟩
        simp only [changeQuantitySuite, List.foldl_cons, hsame]
        exact hw
      · obtain ⟨w, hw, hw1, hw2⟩ := ih u hu1 hu2
        refine ⟨w, ?_, hw1, hw2⟩
        simp only [changeQuantitySuite, List.foldl_cons, hu]
        exact hw

/-- C16 amended, at work: from 8, the deltas 1, 1, 1, -5, 20, 3 give 9, 10, 10, 5,
5, 8. -/
theorem changeQuantity_keeps_range_witness :
    changeQuantity 1 (some 8) = some 9 ∧ changeQuantity 1 (some 10) = some 10 ∧
      ∃ w, changeQuantitySuite [1, 1, 1, -5, 20, 3] (some 8) = some w ∧ 1 ≤ w ∧ w ≤ 10 :=
  ⟨((changeQuantity_keeps_range 8 1).1 (by decide) (by decide)).1 (by decide),
    ((changeQuantity_keeps_range 10 1).1 (by decide) (by decide)).2 (by decide),
    (changeQuantity_keeps_range 8 0).2 [1, 1, 1, -5, 20, 3] (by decide) (by decide)⟩

/-- The test `islands.includes(country)` holds for the three islands only. -/
theorem islands_mem (country : String) :
    country ∈ islands ↔
      country = "Grande Comore" ∨ country = "Anjouan" ∨ country = "Mohéli" := by
  simp [islands]

/-- C17, as stated, fails: the table of lines 18-25 has no entry 'constructor',
yet for 'Grande Comore' and 'constructor' the function does not return 0: the
index finds the member `constructor` that the table inherits, and returns it. -/
theorem getShippingPrice_inherited :
    SHIPPING_PRICES.lookup "constructor" = none ∧
    getShippingPrice SHIPPING_PRICES "Grande Comore" "constructor" = .membre "constructor" ∧
    getShippingPrice SHIPPING_PRICES "Grande Comore" "constructor" ≠ .nombre 0 := by
  decide

/-- C17, amended. The fee `getShippingPrice(country, region)` is 0 whenever
`country` is not one of 'Grande Comore', 'Anjouan', 'Mohéli' or `region` is
empty; otherwise it is the entry of the current table for `region`, 0 when that
entry is zero, and, when the table has no entry of its own for `region`, 0
unless `region` is the name of a member the table inherits from
`Object.prototype` ('constructor', 'toString', ...), in which case that member
is returned. With the table of lines 18-25 every region listed in
`REGIONS_BY_COUNTRY` for its island yields its listed price, which is positive;
'Grande Comore' / 'Moroni' gives 1500. -/
theorem getShippingPrice_spec (prices : List (String × Int)) (country region : String) :
    ((¬ (country = "Grande Comore" ∨ country = "Anjouan" ∨ country = "Mohéli") ∨ region = "") →
      getShippingPrice prices country region = .nombre 0) ∧
    ((country = "Grande Comore" ∨ country = "Anjouan" ∨ country = "Mohéli") → region ≠ "" →
      (∀ price, prices.lookup region = some price →
        getShippingPrice prices country region = .nombre price) ∧
      (prices.lookup region = some 0 → getShippingPrice prices country region = .nombre 0) ∧
      (prices.lookup region = none → region ∉ membresHerites →
        getShippingPrice prices country region = .nombre 0) ∧
      (prices.lookup region = none → region ∈ membresHerites →
        getShippingPrice prices country region = .membre region)) ∧
    (∀ island regions region0, (island, regions) ∈ REGIONS_BY_COUNTRY → region0 ∈ regions →
      ∃ price, SHIPPING_PRICES.lookup region0.value = some price ∧ 0 < price ∧
        getShippingPrice SHIPPING_PRICES island region0.value = .nombre price) ∧
    getShippingPrice SHIPPING_PRICES "Grande Comore" "Moroni" = .nombre 1500 := by
  refine ⟨?_, ?_, ?_, ?_⟩
  · intro h
    rcases h with h | h
    · have hc : country ∉ islands := fun hm => h ((islands_mem country).mp hm)
      simp [getShippingPrice, hc]
    · simp [getShippingPrice, h]
  · intro hc hr
    have hc2 : country ∈ islands := (islands_mem country).mpr hc
    refine ⟨?_, ?_, ?_, ?_⟩
    · intro price hp
      by_cases h0 : price = 0
      · simp [getShippingPrice, hc2, hr, hp, h0]
      · simp [getShippingPrice, hc2, hr, hp, h0]
    · intro hp
      simp [getShippingPrice, hc2, hr, hp]
    · intro hp hm
      simp [getShippingPrice, hc2, hr, hp, hm]
    · intro hp hm
      simp [getShippingPrice, hc2, hr, hp, hm]
  · intro island regions region0 hmem hreg
    simp only [REGIONS_BY_COUNTRY, List.mem_cons, Prod.mk.injEq, List.mem_singleton,
      List.not_mem_nil, or_false] at hmem
    rcases hmem with ⟨h1, h2⟩ | ⟨h1, h2⟩ | ⟨h1, h2⟩
    · subst h1 h2
      simp only [List.mem_cons, List.mem_singleton, List.not_mem_nil, or_false] at hreg
      rcases hreg with h | h
      · subst h; exact ⟨1500, by decide, by decide, by decide⟩
      · subst h; exact ⟨2000, by decide, by decide, by decide⟩
    · subst h1 h2
      simp only [List.mem_cons, List.mem_singleton, List.not_mem_nil, or_false] at hreg
      rcases hreg with h | h
      · subst h; exact ⟨2500, by decide, by decide, by decide⟩
      · subst h; exact ⟨3000, by decide, by decide, by decide⟩
    · subst h1 h2
      simp only [List.mem_cons, List.mem_singleton, List.not_mem_nil, or_false] at hreg
      rcases hreg with h | h
      · subst h; exact ⟨3200, by decide, by decide, by decide⟩
      · subst h; exact ⟨3500, by decide, by decide, by decide⟩
  · decide

/-- C17 amended, at work: for 'Anjouan' and 'Hors Mutsamudu' the table of lines
18-25 gives 3000; for 'France' the fee is 0 whatever the region; for 'Anjouan'
and 'Paris', which the table does not list, it is 0. -/
theorem getShippingPrice_spec_witness :
    getShippingPrice SHIPPING_PRICES "Anjouan" "Hors Mutsamudu" = .nombre 3000 ∧
      getShippingPrice SHIPPING_PRICES "France" "Moroni" = .nombre 0 ∧
      getShippingPrice SHIPPING_PRICES "Anjouan" "Paris" = .nombre 0 :=
  ⟨((getShippingPrice_spec SHIPPING_PRICES "Anjouan" "Hors Mutsamudu").2.1
      (Or.inr (Or.inl rfl)) (by decide)).1 3000 (by decide),
    (getShippingPrice_spec SHIPPING_PRICES "France" "Moroni").1 (Or.inl (by decide)),
    ((getShippingPrice_spec SHIPPING_PRICES "Anjouan" "Paris").2.1
      (Or.inr (Or.inl rfl)) (by decide)).2.2.1 (by decide) (by decide)⟩

namespace Panier

/-! ## Emptying the cart -/

/-- What one call of `retirer` adds to the run: its own entry among the calls of
`retirer`, and requests of which one is a DELETE when the line is found and none
is when it is not. An idle cart is idle afterwards. -/
theorem retirer_footprint (net : Net) (itemId : Int) (s : Panier) :
    ∃ b s1 extra, retirer net itemId s = .returned b s1 ∧
      s1.retraits = s.retraits ++ [itemId] ∧
      s1.requests = s.requests ++ extra ∧
      extra.countP estDelete ≤ 1 ∧
      (s.trouver itemId = none → extra.countP estDelete = 0) ∧
      (s.loading = false → s1.loading = false) := by
  cases h : s.trouver itemId with
  | none =>
    obtain ⟨v, s1, h1, h2, _, _, h5, h6⟩ := charger_returned net (s.log (.call (.retirer itemId)))
    have hret : retirer net itemId s = .returned false s1 := by
      simp [retirer, h, chargerPuisFaux, h1]
    have hcalls : s1.retraits = s.retraits ++ [itemId] := by
      simp [retraits, h2, retirerOf, List.filterMap_append]
    cases hl : s.loading
    · obtain ⟨ha, hb⟩ := h6 (by simpa using hl)
      exact ⟨false, s1, [.getCart], hret, hcalls, by simpa using hb, by simp [estDelete],
        fun _ => (by simp [estDelete]), fun _ => ha⟩
    · obtain ⟨_, _, hc⟩ := h5 (by simpa using hl)
      exact ⟨false, s1, [], hret, hcalls, by simpa using hc, by simp, fun _ => (by simp),
        fun hf => (by cases hf)⟩
  | some item =>
    rcases success_or_echec (net.mutation s.sent) with ⟨status, cart, hr, hok⟩ | hfail
    · refine ⟨true, _, [.deleteProduct item.product_id],
        retirer_found_success net itemId s item h status cart hr hok, ?_, ?_, by simp [estDelete],
        fun hc => (by cases hc), fun hl => hl⟩
      · simp [retraits, calls, mettreAJourBadge, apresDelete, callOf, retirerOf,
          List.filterMap_append]
      · simp [requests, mettreAJourBadge, apresDelete, requestOf, List.filterMap_append]
    · obtain ⟨v, s1, h1, _, h3, _, h5, h6⟩ := retirer_found_failure_spec net itemId s item h hfail
      have hcalls : s1.retraits = s.retraits ++ [itemId] := by
        simp [retraits, h3, retirerOf, List.filterMap_append]
      cases hl : s.loading
      · obtain ⟨ha, hb⟩ := h6 hl
        exact ⟨false, s1, [.deleteProduct item.product_id, .getCart], h1, hcalls, hb,
          by simp [estDelete], fun hc => (by cases hc), fun _ => ha⟩
      · obtain ⟨_, hb⟩ := h5 hl
        exact ⟨false, s1, [.deleteProduct item.product_id], h1, hcalls, hb,
          by simp [estDelete], fun hc => (by cases hc), fun hf => (by cases hf)⟩

/-- The loop of `vider` over a list in two pieces is the loop over the first
piece followed by the loop over the second. -/
theorem viderBoucle_append (net : Net) (xs ys : List LineItem) (s : Panier) :
    viderBoucle net (xs ++ ys) s =
      match viderBoucle net xs s with
      | .returned _ s1 => viderBoucle net ys s1
      | .thrown s1 => .thrown s1 := by
  induction xs generalizing s with
  | nil => rfl
  | cons x xs ih =>
    simp only [List.cons_append, viderBoucle]
    cases retirer net x.id s with
    | returned b s1 => exact ih s1
    | thrown s1 => rfl

/-- The loop of `vider` never rejects; it calls `retirer` once per line of the
list, in order, and sends at most one DELETE per line. -/
theorem viderBoucle_footprint (net : Net) (xs : List LineItem) (s : Panier) :
    ∃ s1 extra, viderBoucle net xs s = .returned () s1 ∧
      s1.retraits = s.retraits ++ xs.map (fun item => item.id) ∧
      s1.requests = s.requests ++ extra ∧
      extra.countP estDelete ≤ xs.length ∧
      (s.loading = false → s1.loading = false) := by
  induction xs generalizing s with
  | nil => exact ⟨s, [], rfl, by simp, by simp, by simp, fun h => h⟩
  | cons x xs ih =>
    obtain ⟨b, s1, e1, h1, h2, h3, h4, _, h6⟩ := retirer_footprint net x.id s
    obtain ⟨s2, e2, g1, g2, g3, g4, g5⟩ := ih s1
    refine ⟨s2, e1 ++ e2, ?_, ?_, ?_, ?_, fun hl => g5 (h6 hl)⟩
    · simp [viderBoucle, h1, g1]
    · rw [g2, h2]; simp
    · rw [g3, h3]; simp
    · simp only [List.countP_append, List.length_cons]; omega

@[simp]
theorem log_call_retraits_vider (s : Panier) :
    (s.log (.call .vider)).retraits = s.retraits := by
  simp [retraits, retirerOf]

/-- C11. For every cart of n lines, `vider` resolves after calling `retirer`
exactly n times: once per line of the copy taken on entry, with the id of that
line, in the order of the copy, whatever the answers to the removals. The
state it ends in is the one left by the call of `retirer` for the last line. -/
theorem vider_calls_retirer_for_each (net : Net) (s : Panier) :
    ∃ s1, vider net s = .returned () s1 ∧
      s1.retraits = s.retraits ++ s.items.map (fun item => item.id) ∧
      s1.retraits.length = s.retraits.length + s.items.length ∧
      (∀ debut dernier, s.items = debut ++ [dernier] →
        ∃ sp b, viderBoucle net debut (s.log (.call .vider)) = .returned () sp ∧
          sp.retraits = s.retraits ++ debut.map (fun item => item.id) ∧
          retirer net dernier.id sp = .returned b s1) := by
  obtain ⟨s1, extra, h1, h2, _, _, _⟩ := viderBoucle_footprint net s.items (s.log (.call .vider))
  rw [log_call_retraits_vider] at h2
  refine ⟨s1, h1, h2, by rw [h2]; simp, ?_⟩
  intro debut dernier hsplit
  obtain ⟨sp, e1, g1, g2, _, _, _⟩ := viderBoucle_footprint net debut (s.log (.call .vider))
  obtain ⟨b, sq, e2, k1, _⟩ := retirer_footprint net dernier.id sp
  refine ⟨sp, b, g1, by simpa using g2, ?_⟩
  have hv : vider net s = .returned () sq := by
    unfold vider
    rw [hsplit, viderBoucle_append, g1]
    simp [viderBoucle, k1]
  have hv2 : vider net s = .returned () s1 := h1
  rw [hv] at hv2
  cases hv2
  exact k1

/-- C11 at work: `vider` on the three lines of `panierTrois`, where the second
removal is answered 500: `retirer` is still called for the third line, and the
cart at the end is the one its answer carries. -/
theorem vider_calls_retirer_for_each_witness :
    ∃ s1, vider netDeuxiemeEchec panierTrois = .returned () s1 ∧
      s1.retraits = [1, 2, 3] ∧
      s1.requests = [.deleteProduct 10, .deleteProduct 20, .getCart, .deleteProduct 30] ∧
      s1.items = [ligneB] := by
  obtain ⟨s1, h1, h2, _, _⟩ := vider_calls_retirer_for_each netDeuxiemeEchec panierTrois
  have heval : vider netDeuxiemeEchec panierTrois = .returned ()
      { items := [ligneB], loading := false, badge := none,
        trace := [.call .vider, .call (.retirer 1), .fetch (.deleteProduct 10),
          .call (.retirer 2), .fetch (.deleteProduct 20), .call .charger, .fetch .getCart,
          .call (.retirer 3), .fetch (.deleteProduct 30)] } := by
    rfl
  rw [heval] at h1
  cases h1
  exact ⟨_, heval, h2, rfl, rfl⟩

/-- C18. During `vider` a line of the copy gets a DELETE only if a line with its
id is still in the cart when its turn comes: the call of `retirer` made at its
turn sends at most one DELETE, and none when no line of the cart then has the
id. So the DELETE requests of a run never outnumber the lines of the copy, and
they can be fewer: on `panierTrois` with the server `netPanne` (the second
removal is answered 500 and so is the reload after it, which empties the cart)
the third line gets no DELETE, only one more reload. -/
theorem vider_deletes_only_present (net : Net) (s : Panier) :
    (∃ s1 extra, vider net s = .returned () s1 ∧ s1.requests = s.requests ++ extra ∧
      extra.countP estDelete ≤ s.items.length) ∧
    (∀ avant item apres, s.items = avant ++ item :: apres →
      ∃ sp b sq extra, viderBoucle net avant (s.log (.call .vider)) = .returned () sp ∧
        retirer net item.id sp = .returned b sq ∧
        viderBoucle net apres sq = vider net s ∧
        sq.requests = sp.requests ++ extra ∧
        extra.countP estDelete ≤ 1 ∧
        ((∀ x ∈ sp.items, x.id ≠ item.id) → extra.countP estDelete = 0)) ∧
    (∃ s1, vider netPanne panierTrois = .returned () s1 ∧
      panierTrois.items.length = 3 ∧
      s1.retraits = [1, 2, 3] ∧
      s1.requests = [.deleteProduct 10, .deleteProduct 20, .getCart, .getCart] ∧
      s1.requests.countP estDelete = 2) := by
  refine ⟨?_, ?_, ?_⟩
  · obtain ⟨s1, extra, h1, _, h3, h4, _⟩ :=
      viderBoucle_footprint net s.items (s.log (.call .vider))
    exact ⟨s1, extra, h1, by simpa using h3, h4⟩
  · intro avant item apres hsplit
    obtain ⟨sp, e1, g1, _⟩ := viderBoucle_footprint net avant (s.log (.call .vider))
    obtain ⟨b, sq, extra, k1, _, k3, k4, k5, _⟩ := retirer_footprint net item.id sp
    refine ⟨sp, b, sq, extra, g1, k1, ?_, k3, k4, fun hnone => k5 (trouver_none sp item.id hnone)⟩
    unfold vider
    rw [hsplit, viderBoucle_append, g1]
    simp [viderBoucle, k1]
  · have heval : vider netPanne panierTrois = .returned ()
        { items := [], loading := false, badge := none,
          trace := [.call .vider, .call (.retirer 1), .fetch (.deleteProduct 10),
            .call (.retirer 2), .fetch (.deleteProduct 20), .call .charger, .fetch .getCart,
            .call (.retirer 3), .call .charger, .fetch .getCart] } := by
      rfl
    exact ⟨_, heval, rfl, rfl, rfl, rfl⟩

/-- C18 at work: in the run of `vider` on `panierTrois` with `netPanne`, when the
turn of the third line comes the cart is empty, and the call of `retirer` for it
sends no DELETE. -/
theorem vider_deletes_only_present_witness :
    ∃ sp b sq extra,
      viderBoucle netPanne [ligneA, ligneB] (panierTrois.log (.call .vider)) = .returned () sp ∧
      sp.items = [] ∧ retirer netPanne 3 sp = .returned b sq ∧
      sq.requests = sp.requests ++ extra ∧ extra.countP estDelete = 0 := by
  obtain ⟨sp, b, sq, extra, h1, h2, _, h4, _, h6⟩ :=
    (vider_deletes_only_present netPanne panierTrois).2.1 [ligneA, ligneB] ligneC [] rfl
  have heval : viderBoucle netPanne [ligneA, ligneB] (panierTrois.log (.call .vider))
      = .returned ()
      { items := [], loading := false, badge := none,
        trace := [.call .vider, .call (.retirer 1), .fetch (.deleteProduct 10),
          .call (.retirer 2), .fetch (.deleteProduct 20), .call .charger, .fetch .getCart] } := by
    rfl
  have hsp := h1
  rw [heval] at hsp
  cases hsp
  exact ⟨_, b, sq, extra, heval, rfl, h2, h4, h6 (by intro x hx; cases hx)⟩

/-- What one call of `ajouter` adds to the run: itself among the calls and one
POST among the requests, whatever the answer. -/
theorem ajouter_footprint (net : Net) (produit : Produit) (s : Panier) :
    ∃ b s1, ajouter net produit s = .returned b s1 ∧
      s1.calls = s.calls ++ [.ajouter produit] ∧
      s1.requests = s.requests ++ [.postCart produit] := by
  unfold ajouter ajouterTry
  rcases net.mutation (s.log (.call (.ajouter produit))).sent with _ | ⟨status, json⟩
  · exact ⟨false, _, rfl, by simp, by simp⟩
  · by_cases hok : Response.okStatus status = true
    · rcases json with _ | cart
      · simp only [hok, if_true]
        exact ⟨false, _, rfl, by simp, by simp⟩
      · simp only [hok, if_true]
        refine ⟨true, _, rfl, ?_, ?_⟩
        · simp [calls, mettreAJourBadge, callOf, List.filterMap_append]
        · simp [requests, mettreAJourBadge, requestOf, List.filterMap_append]
    · by_cases h401 : status = 401
      · simp only [hok, h401, if_true]
        refine ⟨false, _, rfl, ?_, ?_⟩
        · simp [calls, callOf, List.filterMap_append]
        · simp [requests, requestOf, List.filterMap_append]
      · simp only [hok, h401]
        exact ⟨false, _, rfl, by simp, by simp⟩

end Panier

/-! ## The caller `ajouterAuPanier` -/

/-- C13. When the probe of the login status is answered with a status that is not
a success, `ajouterAuPanier` stops: `Panier.ajouter` is not called, no POST
leaves (the probe is the only request), the cart is as before, and the page is
sent to the login page. When the probe cannot be made it stops as well, without
sending and without redirect. When the probe is answered with a success (and a
body that can be read) `Panier.ajouter` is called exactly once, with `quantite`
1 and `type` 'predefined'. `Panier.ajouter` is called only when the status of
the probe is a success. -/
theorem ajouterAuPanier_checks_login (net : Net) (produitId : Int) (nom : String)
    (prix : Int) (image contenant : String) (p : Page) :
    (∀ status json, net.login p.panier.sent = .http status json →
      Response.okStatus status = false →
      ∃ p1, ajouterAuPanier net produitId nom prix image contenant p = .returned p1 ∧
        p1.panier.calls = p.panier.calls ∧
        p1.panier.requests = p.panier.requests ++ [.loginStatus] ∧
        p1.panier.items = p.panier.items ∧
        p1.panier.redirects = p.panier.redirects + 1) ∧
    (net.login p.panier.sent = .networkError →
      ∃ p1, ajouterAuPanier net produitId nom prix image contenant p = .returned p1 ∧
        p1.panier.calls = p.panier.calls ∧
        p1.panier.requests = p.panier.requests ++ [.loginStatus] ∧
        p1.panier.items = p.panier.items ∧
        p1.panier.redirects = p.panier.redirects) ∧
    (∀ status body, net.login p.panier.sent = .http status (some body) →
      Response.okStatus status = true →
      ∃ p1 produit, ajouterAuPanier net produitId nom prix image contenant p = .returned p1 ∧
        p1.panier.calls = p.panier.calls ++ [.ajouter produit] ∧
        p1.panier.requests = p.panier.requests ++ [.loginStatus, .postCart produit] ∧
        produit.quantite = 1 ∧ produit.type = "predefined" ∧
        produit.product_id = produitId ∧ produit.nom = nom ∧ produit.prix = prix ∧
        produit.image = image ∧ produit.contenant = contenant) ∧
    (∀ p1, (ajouterAuPanier net produitId nom prix image contenant p = .returned p1 ∨
        ajouterAuPanier net produitId nom prix image contenant p = .thrown p1) →
      p1.panier.calls ≠ p.panier.calls →
      ∃ status json, net.login p.panier.sent = .http status json ∧
        Response.okStatus status = true) := by
  have hsucc : ∀ status body, net.login p.panier.sent = .http status (some body) →
      Response.okStatus status = true →
      ∃ p1 produit, ajouterAuPanier net produitId nom prix image contenant p = .returned p1 ∧
        p1.panier.calls = p.panier.calls ++ [.ajouter produit] ∧
        p1.panier.requests = p.panier.requests ++ [.loginStatus, .postCart produit] ∧
        produit.quantite = 1 ∧ produit.type = "predefined" ∧
        produit.product_id = produitId ∧ produit.nom = nom ∧ produit.prix = prix ∧
        produit.image = image ∧ produit.contenant = contenant := by
    intro status body hr hok
    obtain ⟨b, s2, h1, h2, h3⟩ := Panier.ajouter_footprint net
      { product_id := produitId, nom := nom, prix := prix, image := image,
        contenant := contenant, type := "predefined", quantite := 1 }
      (p.panier.log (.fetch .loginStatus))
    cases b
    · refine ⟨afficherMessage "Erreur lors de l'ajout au panier. Veuillez réessayer." "error"
          { p with panier := s2 },
        { product_id := produitId, nom := nom, prix := prix, image := image,
          contenant := contenant, type := "predefined", quantite := 1 },
        ?_, ?_, ?_, rfl, rfl, rfl, rfl, rfl, rfl, rfl⟩
      · simp only [ajouterAuPanier, hr, hok, if_true, h1]
      · simpa [afficherMessage] using h2
      · simpa [afficherMessage] using h3
    · refine ⟨afficherMessage "Produit ajouté au panier !" "success" { p with panier := s2 },
        { product_id := produitId, nom := nom, prix := prix, image := image,
          contenant := contenant, type := "predefined", quantite := 1 },
        ?_, ?_, ?_, rfl, rfl, rfl, rfl, rfl, rfl, rfl⟩
      · simp only [ajouterAuPanier, hr, hok, if_true, h1]
      · simpa [afficherMessage] using h2
      · simpa [afficherMessage] using h3
  refine ⟨?_, ?_, hsucc, ?_⟩
  · intro status json hr hok
    simp only [ajouterAuPanier, hr, hok]
    refine ⟨_, rfl, ?_, ?_, ?_, ?_⟩
    · simp [afficherMessage, Panier.calls, Panier.callOf, List.filterMap_append]
    · simp [afficherMessage, Panier.requests, Panier.requestOf, List.filterMap_append]
    · simp [afficherMessage]
    · simp [afficherMessage, Panier.redirects, List.count_append]
  · intro hr
    simp only [ajouterAuPanier, hr]
    refine ⟨_, rfl, ?_, ?_, ?_, ?_⟩
    · simp [afficherMessage]
    · simp [afficherMessage]
    · simp [afficherMessage]
    · simp [afficherMessage, Panier.redirects, List.count_append]
  · intro p1 hp1 hcalls
    rcases hr : net.login p.panier.sent with _ | ⟨status, json⟩
    · exfalso
      apply hcalls
      simp only [ajouterAuPanier, hr] at hp1
      rcases hp1 with h | h
      · cases h
        simp [afficherMessage]
      · cases h
    · by_cases hok : Response.okStatus status = true
      · exact ⟨status, json, rfl, hok⟩
      · exfalso
        apply hcalls
        simp only [ajouterAuPanier, hr, hok] at hp1
        rcases hp1 with h | h
        · cases h
          simp [afficherMessage, Panier.calls, Panier.callOf, List.filterMap_append]
        · cases h

/-- C13 at work: on `pageA` a probe answered 401 leaves the cart alone, sends the
probe only and redirects once; a probe answered 200 is followed by one call of
`Panier.ajouter` with quantity 1. -/
theorem ajouterAuPanier_checks_login_witness :
    (∃ p1, ajouterAuPanier Panier.net401 10 "Rose" 1500 "rose.png" "boite" Panier.pageA
        = .returned p1 ∧ p1.panier.items = [Panier.ligneA] ∧
        p1.panier.requests = [.loginStatus] ∧ p1.panier.redirects = 1) ∧
    (∃ p1, ajouterAuPanier Panier.net200 10 "Rose" 1500 "rose.png" "boite" Panier.pageA
        = .returned p1 ∧ p1.panier.calls = [.ajouter Panier.produitA]) := by
  constructor
  · obtain ⟨p1, h1, _, h3, h4, h5⟩ :=
      (ajouterAuPanier_checks_login Panier.net401 10 "Rose" 1500 "rose.png" "boite"
        Panier.pageA).1 401 none rfl rfl
    exact ⟨p1, h1, h4, h3, h5⟩
  · obtain ⟨p1, produit, h1, h2, _, h4, h5, h6, h7, h8, h9, h10⟩ :=
      (ajouterAuPanier_checks_login Panier.net200 10 "Rose" 1500 "rose.png" "boite"
        Panier.pageA).2.2.1 200 () rfl rfl
    have hp : produit = Panier.produitA := by
      cases produit
      simp only [Produit.mk.injEq, Panier.produitA]
      exact ⟨h6, h7, h8, h9, h10, h5, h4⟩
    subst hp
    exact ⟨p1, h1, h2⟩

namespace Panier

/-! ## The cart mirrors the server -/

/-- The latest success after one more request: that of the new answer when it
is a success, and the one before otherwise. -/
theorem dernierDepuis_snoc (net : Net) (k : Nat) (rs : List Request) (r : Request)
    (acc : Option (List LineItem)) :
    dernierDepuis net k (rs ++ [r]) acc =
      match carried net (k + rs.length) r with
      | some c => some c
      | none => dernierDepuis net k rs acc := by
  induction rs generalizing k acc with
  | nil => simp [dernierDepuis]
  | cons a rs ih =>
    have hlen : k + (a :: rs).length = k + 1 + rs.length := by
      simp only [List.length_cons]; omega
    rw [hlen]
    exact ih (k + 1) _

/-- One answered request keeps the mirror: a success installs its cart, a
failure leaves the cart or empties it. -/
theorem miroir_step (net : Net) (s s1 : Panier) (r : Request) (h : Miroir net s)
    (hl : s1.loading = false) (hreq : s1.requests = s.requests ++ [r])
    (hitems : carried net s.sent r = some s1.items ∨
      (carried net s.sent r = none ∧ (s1.items = s.items ∨ s1.items = []))) :
    Miroir net s1 := by
  refine ⟨hl, ?_⟩
  unfold dernierRetour
  rw [hreq, dernierDepuis_snoc, Nat.zero_add]
  rcases hitems with hc | ⟨hc, hi | hi⟩
  · right
    have hc2 : carried net s.requests.length r = some s1.items := hc
    rw [hc2]
  · have hc2 : carried net s.requests.length r = none := hc
    rw [hc2]
    rcases h.2 with h0 | h0
    · left; rw [hi, h0]
    · right
      have h1 : dernierDepuis net 0 s.requests none = some s.items := h0
      simp only [h1, hi]
  · left; exact hi

/-- A step without a request keeps the mirror when it leaves the cart or
empties it. -/
theorem miroir_same (net : Net) (s s1 : Panier) (h : Miroir net s)
    (hl : s1.loading = false) (hreq : s1.requests = s.requests)
    (hitems : s1.items = s.items ∨ s1.items = []) : Miroir net s1 := by
  refine ⟨hl, ?_⟩
  unfold dernierRetour
  rw [hreq]
  rcases hitems with hi | hi
  · rcases h.2 with h0 | h0
    · left; rw [hi, h0]
    · right
      have h1 : dernierDepuis net 0 s.requests none = some s.items := h0
      rw [h1, hi]
  · left; exact hi

/-- A failed mutation carries no cart. -/
theorem carried_echec (net : Net) (k : Nat) (r : Request)
    (hr : echec (net.mutation k)) (hmut : r ≠ .getCart) : carried net k r = none := by
  rcases hr with hr | ⟨status, json, hr, hok⟩ | ⟨status, hr⟩
  · cases r <;> simp_all [carried]
  · cases r <;> cases json <;> simp_all [carried]
  · cases r <;> simp_all [carried]

/-- A call of `charger` with no load in flight sends one GET and installs the
cart its answer carries, or the empty cart when it carries none. -/
theorem charger_idle_carried (net : Net) (s : Panier) (h : s.loading = false) :
    ∃ v s1, charger net s = .returned v s1 ∧ s1.loading = false ∧
      s1.requests = s.requests ++ [.getCart] ∧
      (carried net s.sent .getCart = some s1.items ∨
        (carried net s.sent .getCart = none ∧ s1.items = [])) := by
  unfold charger
  rw [chargerBegin_idle s h]
  unfold chargerResume chargerTry
  rcases hr : net.cart s.sent with _ | ⟨status, json⟩
  · refine ⟨_, _, rfl, rfl, by simp [requests, requestOf, List.filterMap_append], ?_⟩
    right
    exact ⟨by simp [carried, hr], rfl⟩
  · by_cases hok : Response.okStatus status = true
    · rcases json with _ | xs
      · simp only [hok, if_true]
        refine ⟨_, _, rfl, rfl, by simp [requests, requestOf, List.filterMap_append], ?_⟩
        right
        exact ⟨by simp [carried, hr], rfl⟩
      · simp only [hok, if_true]
        refine ⟨_, _, rfl, rfl, by simp [requests, requestOf, List.filterMap_append], ?_⟩
        left
        simp [carried, hr, hok]
    · simp only [hok]
      refine ⟨_, _, rfl, rfl, by simp [requests, requestOf, List.filterMap_append], ?_⟩
      right
      exact ⟨by cases json <;> simp [carried, hr, hok], rfl⟩

/-- The mirror survives `charger`. -/
theorem charger_miroir (net : Net) (s : Panier) (h : Miroir net s) :
    ∃ v s1, charger net s = .returned v s1 ∧ Miroir net s1 := by
  obtain ⟨v, s1, h1, h2, h3, h4⟩ := charger_idle_carried net s h.1
  refine ⟨v, s1, h1, miroir_step net s s1 .getCart h h2 h3 ?_⟩
  rcases h4 with h4 | ⟨h4, h5⟩
  · exact Or.inl h4
  · exact Or.inr ⟨h4, Or.inr h5⟩

/-- A successful mutation carries `data.cart || []`. -/
theorem carried_success (net : Net) (k : Nat) (r : Request) (status : Nat)
    (cart : Option (List LineItem)) (hr : net.mutation k = .http status (some cart))
    (hok : Response.okStatus status = true) (hget : r ≠ .getCart) (hlogin : r ≠ .loginStatus) :
    carried net k r = some (cartOr cart) := by
  cases r <;> simp_all [carried]

/-- The mirror survives `ajouter`. -/
theorem ajouter_miroir (net : Net) (produit : Produit) (s : Panier) (h : Miroir net s) :
    ∃ b s1, ajouter net produit s = .returned b s1 ∧ Miroir net s1 := by
  rcases success_or_echec (net.mutation s.sent) with ⟨status, cart, hr, hok⟩ | hfail
  · refine ⟨true, _, ajouter_success net produit s status cart hr hok,
      miroir_step net s _ (.postCart produit) h h.1 ?_ ?_⟩
    · simp [apresAjout, mettreAJourBadge, requests, requestOf, List.filterMap_append]
    · left
      rw [apresAjout_items]
      exact carried_success net s.sent _ status cart hr hok (by simp) (by simp)
  · have hnone := carried_echec net s.sent (.postCart produit) hfail (by simp)
    have hs : (s.log (.call (.ajouter produit))).sent = s.sent := by simp
    unfold ajouter ajouterTry
    rw [hs]
    rcases hr : net.mutation s.sent with _ | ⟨status, json⟩
    · exact ⟨false, _, rfl, miroir_step net s _ (.postCart produit) h h.1 (by simp)
        (Or.inr ⟨hnone, Or.inl rfl⟩)⟩
    · by_cases hok : Response.okStatus status = true
      · rcases json with _ | cart
        · simp only [hok, if_true]
          exact ⟨false, _, rfl, miroir_step net s _ (.postCart produit) h h.1 (by simp)
            (Or.inr ⟨hnone, Or.inl rfl⟩)⟩
        · exact (echec_not_success _ hfail status cart hr hok).elim
      · by_cases h401 : status = 401
        · simp only [hok, h401, if_true]
          refine ⟨false, _, rfl, miroir_step net s _ (.postCart produit) h h.1 ?_
            (Or.inr ⟨hnone, Or.inl rfl⟩)⟩
          simp [requests, requestOf, List.filterMap_append]
        · simp only [hok, h401]
          exact ⟨false, _, rfl, miroir_step net s _ (.postCart produit) h h.1 (by simp)
            (Or.inr ⟨hnone, Or.inl rfl⟩)⟩

/-- The mirror survives `mettreAJourQuantite`. -/
theorem mettreAJourQuantite_miroir (net : Net) (itemId quantite : Int) (s : Panier)
    (h : Miroir net s) :
    ∃ b s1, mettreAJourQuantite net itemId quantite s = .returned b s1 ∧ Miroir net s1 := by
  cases hf : s.trouver itemId with
  | none =>
    exact ⟨false, _, mettreAJourQuantite_absent net itemId quantite s hf,
      miroir_same net s _ h h.1 (by simp) (Or.inl rfl)⟩
  | some item =>
    rcases success_or_echec (net.mutation s.sent) with ⟨status, cart, hr, hok⟩ | hfail
    · refine ⟨true, _, mettreAJourQuantite_success net itemId quantite s item hf status cart hr hok,
        miroir_step net s _ (.putItem itemId { item with quantite := quantite }) h h.1 ?_ ?_⟩
      · simp [apresPut, mettreAJourBadge, requests, requestOf, List.filterMap_append]
      · left
        exact carried_success net s.sent _ status cart hr hok (by simp) (by simp)
    · exact ⟨false, _, mettreAJourQuantite_failure net itemId quantite s item hf hfail,
        miroir_step net s _ (.putItem itemId { item with quantite := quantite }) h h.1 (by simp)
          (Or.inr ⟨carried_echec net s.sent _ hfail (by simp), Or.inl rfl⟩)⟩

/-- The mirror survives `retirer`. -/
theorem retirer_miroir (net : Net) (itemId : Int) (s : Panier) (h : Miroir net s) :
    ∃ b s1, retirer net itemId s = .returned b s1 ∧ Miroir net s1 := by
  cases hf : s.trouver itemId with
  | none =>
    have h0 : Miroir net (s.log (.call (.retirer itemId))) :=
      miroir_same net s _ h h.1 (by simp) (Or.inl rfl)
    obtain ⟨v, s1, h1, h2⟩ := charger_miroir net _ h0
    exact ⟨false, s1, by simp [retirer, hf, chargerPuisFaux, h1], h2⟩
  | some item =>
    rcases success_or_echec (net.mutation s.sent) with ⟨status, cart, hr, hok⟩ | hfail
    · refine ⟨true, _, retirer_found_success net itemId s item hf status cart hr hok,
        miroir_step net s _ (.deleteProduct item.product_id) h h.1 ?_ ?_⟩
      · simp [apresDelete, mettreAJourBadge, requests, requestOf, List.filterMap_append]
      · left
        exact carried_success net s.sent _ status cart hr hok (by simp) (by simp)
    · have h0 : Miroir net (apresDelete itemId item.product_id s) :=
        miroir_step net s _ (.deleteProduct item.product_id) h h.1 (by simp)
          (Or.inr ⟨carried_echec net s.sent _ hfail (by simp), Or.inl rfl⟩)
      obtain ⟨v, s1, h1, h2⟩ := charger_miroir net _ h0
      refine ⟨false, s1, ?_, h2⟩
      rw [retirer_found_failure net itemId s item hf hfail]
      simp [chargerPuisFaux, h1]

/-- The mirror survives the loop of `vider`. -/
theorem viderBoucle_miroir (net : Net) (xs : List LineItem) (s : Panier) (h : Miroir net s) :
    ∃ s1, viderBoucle net xs s = .returned () s1 ∧ Miroir net s1 := by
  induction xs generalizing s with
  | nil => exact ⟨s, rfl, h⟩
  | cons x xs ih =>
    obtain ⟨b, s1, h1, h2⟩ := retirer_miroir net x.id s h
    obtain ⟨s2, g1, g2⟩ := ih s1 h2
    exact ⟨s2, by simp [viderBoucle, h1, g1], g2⟩

/-- The mirror survives each operation. -/
theorem appeler_miroir (net : Net) (c : Call) (s : Panier) (h : Miroir net s) :
    ∃ s1, appeler net c s = .returned () s1 ∧ Miroir net s1 := by
  cases c with
  | charger =>
    obtain ⟨v, s1, h1, h2⟩ := charger_miroir net s h
    exact ⟨s1, by simp [appeler, h1], h2⟩
  | ajouter produit =>
    obtain ⟨b, s1, h1, h2⟩ := ajouter_miroir net produit s h
    exact ⟨s1, by simp [appeler, h1], h2⟩
  | retirer itemId =>
    obtain ⟨b, s1, h1, h2⟩ := retirer_miroir net itemId s h
    exact ⟨s1, by simp [appeler, h1], h2⟩
  | mettreAJourQuantite itemId quantite =>
    obtain ⟨b, s1, h1, h2⟩ := mettreAJourQuantite_miroir net itemId quantite s h
    exact ⟨s1, by simp [appeler, h1], h2⟩
  | vider =>
    have h0 : Miroir net (s.log (.call .vider)) :=
      miroir_same net s _ h h.1 (by simp) (Or.inl rfl)
    obtain ⟨s1, h1, h2⟩ := viderBoucle_miroir net s.items _ h0
    exact ⟨s1, by simp [appeler, vider, h1], h2⟩

/-- The mirror survives every run of operations. -/
theorem suite_miroir (net : Net) (ops : List Call) (s : Panier) (h : Miroir net s) :
    ∃ s1, suite net ops s = .returned () s1 ∧ Miroir net s1 := by
  induction ops generalizing s with
  | nil => exact ⟨s, rfl, h⟩
  | cons c ops ih =>
    obtain ⟨s1, h1, h2⟩ := appeler_miroir net c s h
    obtain ⟨s2, g1, g2⟩ := ih s1 h2
    exact ⟨s2, by simp [suite, h1, g1], g2⟩

/-! ## The cart follows the policy of the specification -/

/-- The range test of the policy is `response.ok`. -/
theorem okStatus_iff (status : Nat) :
    Response.okStatus status = true ↔ 200 ≤ status ∧ status ≤ 299 := by
  simp [Response.okStatus]

/-- The policy after one more request. -/
theorem attendu_snoc (net : Net) (k : Nat) (rs : List Request) (r : Request)
    (avant : List LineItem) :
    attendu net k (rs ++ [r]) avant = politique net (k + rs.length) r (attendu net k rs avant) := by
  induction rs generalizing k avant with
  | nil => simp [attendu]
  | cons a rs ih =>
    have hlen : k + (a :: rs).length = k + 1 + rs.length := by
      simp only [List.length_cons]; omega
    rw [hlen]
    exact ih (k + 1) _

/-- One answered request keeps the cart faithful when the cart after it is what
the policy makes of the cart before. -/
theorem fidele_step (net : Net) (s s1 : Panier) (r : Request) (h : Fidele net s)
    (hl : s1.loading = false) (hreq : s1.requests = s.requests ++ [r])
    (hitems : s1.items = politique net s.sent r s.items) : Fidele net s1 := by
  refine ⟨hl, ?_⟩
  rw [hreq, attendu_snoc, Nat.zero_add, hitems, h.2]
  rfl

/-- A step without a request keeps the cart faithful when it leaves the cart. -/
theorem fidele_same (net : Net) (s s1 : Panier) (h : Fidele net s)
    (hl : s1.loading = false) (hreq : s1.requests = s.requests)
    (hitems : s1.items = s.items) : Fidele net s1 := by
  refine ⟨hl, ?_⟩
  rw [hreq, hitems]
  exact h.2

/-- The policy for a mutation that succeeds. -/
theorem politique_success (net : Net) (k : Nat) (r : Request) (avant : List LineItem)
    (status : Nat) (cart : Option (List LineItem))
    (hr : net.mutation k = .http status (some cart))
    (hok : Response.okStatus status = true) (hget : r ≠ .getCart) (hlogin : r ≠ .loginStatus) :
    politique net k r avant = cartOr cart := by
  have hrange := (okStatus_iff status).mp hok
  cases r <;> cases cart <;> simp_all [politique, cartOr]

/-- The policy for a mutation that fails. -/
theorem politique_echec (net : Net) (k : Nat) (r : Request) (avant : List LineItem)
    (hr : echec (net.mutation k)) (hget : r ≠ .getCart) : politique net k r avant = avant := by
  rcases hr with hr | ⟨status, json, hr, hok⟩ | ⟨status, hr⟩
  · cases r <;> simp_all [politique]
  · have hrange : ¬ (200 ≤ status ∧ status ≤ 299) := by
      rw [← okStatus_iff]; simp [hok]
    cases r <;> rcases json with _ | _ | _ <;> simp_all [politique]
  · cases r <;> simp_all [politique]

/-- A call of `charger` with no load in flight sends one GET and leaves the cart
the policy prescribes for its answer. -/
theorem charger_idle_politique (net : Net) (s : Panier) (h : s.loading = false) :
    ∃ v s1, charger net s = .returned v s1 ∧ s1.loading = false ∧
      s1.requests = s.requests ++ [.getCart] ∧
      s1.items = politique net s.sent .getCart s.items := by
  unfold charger
  rw [chargerBegin_idle s h]
  unfold chargerResume chargerTry
  rcases hr : net.cart s.sent with _ | ⟨status, json⟩
  · refine ⟨_, _, rfl, rfl, by simp [requests, requestOf, List.filterMap_append], ?_⟩
    simp [politique, hr]
  · by_cases hok : Response.okStatus status = true
    · have hrange := (okStatus_iff status).mp hok
      rcases json with _ | xs
      · simp only [hok, if_true]
        refine ⟨_, _, rfl, rfl, by simp [requests, requestOf, List.filterMap_append], ?_⟩
        simp [politique, hr]
      · simp only [hok, if_true]
        refine ⟨_, _, rfl, rfl, by simp [requests, requestOf, List.filterMap_append], ?_⟩
        simp [politique, hr, hrange]
    · have hrange : ¬ (200 ≤ status ∧ status ≤ 299) := by
        rw [← okStatus_iff]; exact hok
      simp only [hok]
      refine ⟨_, _, rfl, rfl, by simp [requests, requestOf, List.filterMap_append], ?_⟩
      cases json <;> simp [politique, hr, hrange]

/-- The cart stays faithful through `charger`. -/
theorem charger_fidele (net : Net) (s : Panier) (h : Fidele net s) :
    ∃ v s1, charger net s = .returned v s1 ∧ Fidele net s1 := by
  obtain ⟨v, s1, h1, h2, h3, h4⟩ := charger_idle_politique net s h.1
  exact ⟨v, s1, h1, fidele_step net s s1 .getCart h h2 h3 h4⟩

/-- The cart stays faithful through `ajouter`. -/
theorem ajouter_fidele (net : Net) (produit : Produit) (s : Panier) (h : Fidele net s) :
    ∃ b s1, ajouter net produit s = .returned b s1 ∧ Fidele net s1 := by
  rcases success_or_echec (net.mutation s.sent) with ⟨status, cart, hr, hok⟩ | hfail
  · refine ⟨true, _, ajouter_success net produit s status cart hr hok,
      fidele_step net s _ (.postCart produit) h h.1 ?_ ?_⟩
    · simp [apresAjout, mettreAJourBadge, requests, requestOf, List.filterMap_append]
    · rw [apresAjout_items]
      exact (politique_success net s.sent _ s.items status cart hr hok (by simp) (by simp)).symm
  · have hsame := politique_echec net s.sent (.postCart produit) s.items hfail (by simp)
    have hs : (s.log (.call (.ajouter produit))).sent = s.sent := by simp
    unfold ajouter ajouterTry
    rw [hs]
    rcases hr : net.mutation s.sent with _ | ⟨status, json⟩
    · exact ⟨false, _, rfl, fidele_step net s _ (.postCart produit) h h.1 (by simp)
        hsame.symm⟩
    · by_cases hok : Response.okStatus status = true
      · rcases json with _ | cart
        · simp only [hok, if_true]
          exact ⟨false, _, rfl, fidele_step net s _ (.postCart produit) h h.1 (by simp)
            hsame.symm⟩
        · exact (echec_not_success _ hfail status cart hr hok).elim
      · by_cases h401 : status = 401
        · simp only [hok, h401, if_true]
          refine ⟨false, _, rfl, fidele_step net s _ (.postCart produit) h h.1 ?_ hsame.symm⟩
          simp [requests, requestOf, List.filterMap_append]
        · simp only [hok, h401]
          exact ⟨false, _, rfl, fidele_step net s _ (.postCart produit) h h.1 (by simp)
            hsame.symm⟩

/-- The cart stays faithful through `mettreAJourQuantite`. -/
theorem mettreAJourQuantite_fidele (net : Net) (itemId quantite : Int) (s : Panier)
    (h : Fidele net s) :
    ∃ b s1, mettreAJourQuantite net itemId quantite s = .returned b s1 ∧ Fidele net s1 := by
  cases hf : s.trouver itemId with
  | none =>
    exact ⟨false, _, mettreAJourQuantite_absent net itemId quantite s hf,
      fidele_same net s _ h h.1 (by simp) rfl⟩
  | some item =>
    rcases success_or_echec (net.mutation s.sent) with ⟨status, cart, hr, hok⟩ | hfail
    · refine ⟨true, _, mettreAJourQuantite_success net itemId quantite s item hf status cart hr hok,
        fidele_step net s _ (.putItem itemId { item with quantite := quantite }) h h.1 ?_ ?_⟩
      · simp [apresPut, mettreAJourBadge, requests, requestOf, List.filterMap_append]
      · exact (politique_success net s.sent _ s.items status cart hr hok (by simp)
          (by simp)).symm
    · exact ⟨false, _, mettreAJourQuantite_failure net itemId quantite s item hf hfail,
        fidele_step net s _ (.putItem itemId { item with quantite := quantite }) h h.1 (by simp)
          (politique_echec net s.sent _ s.items hfail (by simp)).symm⟩

/-- The cart stays faithful through `retirer`. -/
theorem retirer_fidele (net : Net) (itemId : Int) (s : Panier) (h : Fidele net s) :
    ∃ b s1, retirer net itemId s = .returned b s1 ∧ Fidele net s1 := by
  cases hf : s.trouver itemId with
  | none =>
    have h0 : Fidele net (s.log (.call (.retirer itemId))) :=
      fidele_same net s _ h h.1 (by simp) rfl
    obtain ⟨v, s1, h1, h2⟩ := charger_fidele net _ h0
    exact ⟨false, s1, by simp [retirer, hf, chargerPuisFaux, h1], h2⟩
  | some item =>
    rcases success_or_echec (net.mutation s.sent) with ⟨status, cart, hr, hok⟩ | hfail
    · refine ⟨true, _, retirer_found_success net itemId s item hf status cart hr hok,
        fidele_step net s _ (.deleteProduct item.product_id) h h.1 ?_ ?_⟩
      · simp [apresDelete, mettreAJourBadge, requests, requestOf, List.filterMap_append]
      · exact (politique_success net s.sent _ s.items status cart hr hok (by simp)
          (by simp)).symm
    · have h0 : Fidele net (apresDelete itemId item.product_id s) :=
        fidele_step net s _ (.deleteProduct item.product_id) h h.1 (by simp)
          (politique_echec net s.sent _ s.items hfail (by simp)).symm
      obtain ⟨v, s1, h1, h2⟩ := charger_fidele net _ h0
      refine ⟨false, s1, ?_, h2⟩
      rw [retirer_found_failure net itemId s item hf hfail]
      simp [chargerPuisFaux, h1]

/-- The cart stays faithful through the loop of `vider`. -/
theorem viderBoucle_fidele (net : Net) (xs : List LineItem) (s : Panier) (h : Fidele net s) :
    ∃ s1, viderBoucle net xs s = .returned () s1 ∧ Fidele net s1 := by
  induction xs generalizing s with
  | nil => exact ⟨s, rfl, h⟩
  | cons x xs ih =>
    obtain ⟨b, s1, h1, h2⟩ := retirer_fidele net x.id s h
    obtain ⟨s2, g1, g2⟩ := ih s1 h2
    exact ⟨s2, by simp [viderBoucle, h1, g1], g2⟩

/-- The cart stays faithful through each operation. -/
theorem appeler_fidele (net : Net) (c : Call) (s : Panier) (h : Fidele net s) :
    ∃ s1, appeler net c s = .returned () s1 ∧ Fidele net s1 := by
  cases c with
  | charger =>
    obtain ⟨v, s1, h1, h2⟩ := charger_fidele net s h
    exact ⟨s1, by simp [appeler, h1], h2⟩
  | ajouter produit =>
    obtain ⟨b, s1, h1, h2⟩ := ajouter_fidele net produit s h
    exact ⟨s1, by simp [appeler, h1], h2⟩
  | retirer itemId =>
    obtain ⟨b, s1, h1, h2⟩ := retirer_fidele net itemId s h
    exact ⟨s1, by simp [appeler, h1], h2⟩
  | mettreAJourQuantite itemId quantite =>
    obtain ⟨b, s1, h1, h2⟩ := mettreAJourQuantite_fidele net itemId quantite s h
    exact ⟨s1, by simp [appeler, h1], h2⟩
  | vider =>
    have h0 : Fidele net (s.log (.call .vider)) :=
      fidele_same net s _ h h.1 (by simp) rfl
    obtain ⟨s1, h1, h2⟩ := viderBoucle_fidele net s.items _ h0
    exact ⟨s1, by simp [appeler, vider, h1], h2⟩

/-- The cart stays faithful, and mirrors the server, through every run of
operations. -/
theorem suite_fidele (net : Net) (ops : List Call) (s : Panier) (h : Fidele net s)
    (hm : Miroir net s) :
    ∃ s1, suite net ops s = .returned () s1 ∧ Fidele net s1 ∧ Miroir net s1 := by
  induction ops generalizing s with
  | nil => exact ⟨s, rfl, h, hm⟩
  | cons c ops ih =>
    obtain ⟨s1, h1, h2⟩ := appeler_fidele net c s h
    obtain ⟨s1b, k1, k2⟩ := appeler_miroir net c s hm
    rw [h1] at k1
    cases k1
    obtain ⟨s2, g1, g2⟩ := ih s1 h2 k2
    exact ⟨s2, by simp [suite, h1, g1], g2⟩

/-- The object `new Panier()` returns has a load in flight, and `init` is that
load brought to its end followed by the badge. -/
theorem init_constructeur (net : Net) (badge : Option Nombre) :
    (constructeur badge).loading = true ∧ (constructeur badge).requests = [.getCart] ∧
    init net (nouveau badge) =
      match chargerResume (net.cart 0) (constructeur badge) with
      | .returned _ s1 => .returned () s1.mettreAJourBadge
      | .thrown s1 => .thrown s1 :=
  ⟨rfl, rfl, rfl⟩

/-- Once the load of the constructor has been answered the cart is faithful and
mirrors the server. -/
theorem init_fidele (net : Net) (badge : Option Nombre) :
    ∃ s0, init net (nouveau badge) = .returned () s0 ∧ Fidele net s0 ∧ Miroir net s0 := by
  have hf : Fidele net (nouveau badge) := ⟨rfl, rfl⟩
  have hm : Miroir net (nouveau badge) := ⟨rfl, Or.inl rfl⟩
  obtain ⟨v, s1, h1, h2⟩ := charger_fidele net _ hf
  obtain ⟨v2, s1b, k1, k2⟩ := charger_miroir net _ hm
  rw [h1] at k1
  cases k1
  refine ⟨s1.mettreAJourBadge, by simp [init, h1], ?_, ?_⟩
  · exact fidele_same net s1 _ h2 h2.1 rfl rfl
  · exact miroir_same net s1 _ k2 k2.1 rfl (Or.inl rfl)

/-- The policy at work: after the load of the constructor answered with
`[ligneB]`, an add answered with `[ligneB]` and a removal of an id the cart does
not hold (which reloads), the cart is `[ligneB]`, as the policy prescribes for
the three requests sent. -/
theorem suite_fidele_exemple :
    ∃ s0 s1, init net200 (nouveau none) = .returned () s0 ∧
      suite net200 [.ajouter produitA, .retirer 7] s0 = .returned () s1 ∧
      s1.requests = [.getCart, .postCart produitA, .getCart] ∧
      s1.items = [ligneB] ∧ attendu net200 0 s1.requests [] = [ligneB] := by
  have h0 : init net200 (nouveau none) = .returned ()
      { items := [ligneB], loading := false, badge := none,
        trace := [.call .charger, .fetch .getCart] } := by
    rfl
  have h1 : suite net200 [.ajouter produitA, .retirer 7]
      { items := [ligneB], loading := false, badge := none,
        trace := [.call .charger, .fetch .getCart] } = .returned ()
      { items := [ligneB], loading := false, badge := none,
        trace := [.call .charger, .fetch .getCart, .call (.ajouter produitA),
          .fetch (.postCart produitA), .call (.retirer 7), .call .charger,
          .fetch .getCart] } := by
    rfl
  exact ⟨_, _, h0, h1, rfl, rfl, rfl⟩

/-- C12, as stated, fails: the load of the constructor is answered 200 with
`[ligneB]`, then a call of `charger` is answered 500. The cart is then empty,
although the most recent successful answer carried `[ligneB]` and no answer of
the server ever carried the empty list: the failed load has set a value the
server did not return. -/
theorem charger_failure_breaks_mirror :
    netPuisPanne.cart 0 = .http 200 (some [ligneB]) ∧
    (∀ k, k ≠ 0 → netPuisPanne.cart k = .http 500 none) ∧
    ∃ s0 s1, init netPuisPanne (nouveau none) = .returned () s0 ∧
      s0.items = [ligneB] ∧
      suite netPuisPanne [.charger] s0 = .returned () s1 ∧
      s1.items = [] ∧
      s1.requests = [.getCart, .getCart] ∧
      dernierRetour netPuisPanne s1 = some [ligneB] ∧
      dernierRetour netPuisPanne s1 ≠ some s1.items := by
  refine ⟨rfl, ?_, ?_⟩
  · intro k hk
    simp [netPuisPanne, hk]
  · have h0 : init netPuisPanne (nouveau none) = .returned ()
        { items := [ligneB], loading := false, badge := none,
          trace := [.call .charger, .fetch .getCart] } := by
      rfl
    have h1 : suite netPuisPanne [.charger]
        { items := [ligneB], loading := false, badge := none,
          trace := [.call .charger, .fetch .getCart] } = .returned ()
        { items := [], loading := false, badge := none,
          trace := [.call .charger, .fetch .getCart, .call .charger, .fetch .getCart] } := by
      rfl
    exact ⟨_, _, h0, rfl, h1, rfl, rfl, rfl, by decide⟩

/-- C12, amended. Once the load started by the constructor has been answered,
whatever run of `charger`, `ajouter`, `retirer`, `mettreAJourQuantite` and
`vider` calls is awaited one after the other and whatever the server answers,
the run resolves and the cart is exactly the one the policy of the specification
prescribes for the answers received, in order: the sequence returned by a load
that succeeded, the empty list after a load that failed, the cart returned by an
add, a removal or an update that succeeded, and the cart as it was after one
that failed. So the cart is always the empty list or exactly the cart carried
by the most recent successful answer, and the empty list, which a failed load
installs, is the one value an operation sets that the server may not have
returned. -/
theorem cart_mirrors_last_answer (net : Net) (badge : Option Nombre) (ops : List Call) :
    ∃ s0 s1, init net (nouveau badge) = .returned () s0 ∧
      suite net ops s0 = .returned () s1 ∧
      s1.items = attendu net 0 s1.requests [] ∧
      (s1.items = [] ∨ dernierRetour net s1 = some s1.items) := by
  obtain ⟨s0, h0, hf, hm⟩ := init_fidele net badge
  obtain ⟨s1, h1, h2, h3⟩ := suite_fidele net ops s0 hf hm
  exact ⟨s0, s1, h0, h1, h2.2, h3.2⟩

end Panier

end Cart
